import Mathlib

/-!
# wxpay: a shallow embedding of the operation layer

The Go package `wxpay` (files `wxpay.go`, `config.go`) offers seven networked
operations, the passive `Notify` intake and two signing helpers.  Every function
of `wxpay.go` is transcribed below, statement by statement.

* A Go `map[string]string` is a reference: writes made by an operation are
  visible to the caller.  The embedding therefore returns the caller's map as it
  stands after the call (`Outcome.params`).
* Calls that leave the package (`map2Xml`, `sendXmlRequest`, `json.Marshal`) are
  logged in a trace, so that "the transport was invoked" is a statement about
  the outcome.
* The helpers `getNonceStr`, `makeSign`, `map2Xml`, `sendXmlRequest`, `xml2Map`
  and the library calls `xml.Unmarshal`, `json.Marshal`, `time.Now` are not
  defined in `wxpay.go` or `config.go`; they are the fields of `Env`, and the
  theorems hold for every choice of them.  Only the statement on the signature
  of an outgoing request needs to know what `makeSign` skips; there the signer
  is the one the specification describes (`Wxpay.makeSign`).
-/

set_option autoImplicit false
set_option maxRecDepth 8000

namespace Wxpay

/-! ## Data model -/

/-- A Go `map[string]string`: an association list in which no key occurs twice.
The order of the entries is the order of insertion, newest first; Go leaves the
iteration order open. -/
structure Params where
  entries : List (String × String)
  nodup : (entries.map Prod.fst).Nodup
deriving DecidableEq, Repr

namespace Params

/-- The map literal `map[string]string{}` (also what `make` returns). -/
def empty : Params := ⟨[], List.nodup_nil⟩

/-- The two-valued lookup `v, ok := m[k]`. -/
def lookup (m : Params) (k : String) : Option String :=
  (m.entries.find? (fun e => e.1 = k)).map Prod.snd

/-- The Go expression `m[k]`: the value stored under `k`, the empty string when
the key is absent. -/
def get (m : Params) (k : String) : String :=
  (m.lookup k).getD ""

/-- The Go statement `m[k] = v`: the entry of `k` is replaced or created, every
other entry is kept. -/
def set (m : Params) (k v : String) : Params :=
  ⟨(k, v) :: m.entries.filter (fun e => e.1 ≠ k), by
    rw [List.map_cons, List.nodup_cons]
    refine ⟨?_, m.nodup.sublist ((List.filter_sublist _).map _)⟩
    simp [List.mem_map, List.mem_filter]⟩

/-- A Go map literal `map[string]string{k1: v1, k2: v2, ...}`. -/
def ofList (l : List (String × String)) : Params :=
  l.foldl (fun m e => m.set e.1 e.2) empty

/-- The entries a predicate keeps. -/
def filter (m : Params) (keep : String × String → Bool) : Params :=
  ⟨m.entries.filter keep, m.nodup.sublist ((List.filter_sublist _).map _)⟩

end Params

/-- The part of `tls.Config` that `NewWxPayTlsConfig` fills in. -/
structure TlsConfig where
  Certificates : List String
  RootCAs : Option (List String)
deriving DecidableEq, Repr

/-- The struct `WxPayConfig` of `config.go`; `TlsConfig` is a pointer that may be
nil, `Timeout` a `time.Duration`. -/
structure WxPayConfig where
  AppId : String
  MchId : String
  AppKey : String
  TradeType : String
  SpbillCreateIp : String
  NotifyUrl : String
  TlsConfig : Option TlsConfig
  Timeout : Int
deriving DecidableEq, Repr

/-- The constructor `NewWxPayConfig` of `config.go`. -/
def NewWxPayConfig (appId appKey mchId tradeType notifyUrl spbillCreateIp : String)
    (tlsConfig : Option TlsConfig) : WxPayConfig :=
  { AppId := appId
    MchId := mchId
    AppKey := appKey
    TradeType := tradeType
    SpbillCreateIp := spbillCreateIp
    NotifyUrl := notifyUrl
    TlsConfig := match tlsConfig with
      | some t => some t
      | none => none
    Timeout := 6 }

/-- Modelled from the spec: the response struct declarations (`UnifiedOrderResponse`,
`OrderQueryResponse`, `CloseOrderResponse`, `RefundResponse`, `RefundQueryResponse`,
`NotifyResponse`, `MicroPayResponse`, `ReverseOrderResponse`) are not in `wxpay.go` or
`config.go`.  The spec's ResponseRecord holds "a top-level status code, a
human-readable message, and a carried signature field, plus operation-specific
result fields"; `wxpay.go` reads the first three as `ReturnCode`, `ReturnMsg`
and `Sign`. -/
structure Response where
  ReturnCode : String
  ReturnMsg : String
  Sign : String
  fields : List (String × String)
deriving DecidableEq, Repr

/-- The Go zero value `XResponse{}`. -/
def Response.zero : Response :=
  { ReturnCode := "", ReturnMsg := "", Sign := "", fields := [] }

/-- Which response struct a value is decoded into or flattened from. -/
inductive RespType
  | UnifiedOrderResponse
  | OrderQueryResponse
  | CloseOrderResponse
  | RefundResponse
  | RefundQueryResponse
  | NotifyResponse
  | MicroPayResponse
  | ReverseOrderResponse
deriving DecidableEq, Repr

/-- A Go `error`: `none` is nil, `some msg` an error with that message. -/
abbrev Error := Option String

/-- The calls that leave `wxpay.go`, with their arguments. -/
inductive Event
  | map2Xml (params : Params)
  | sendXmlRequest (method url xmlString : String) (tlsConfig : Option TlsConfig) (timeout : Int)
  | jsonMarshal (obj : Params)
deriving DecidableEq, Repr

/-- Whether an event is an invocation of the transport. -/
def Event.isSend : Event → Bool
  | .sendXmlRequest _ _ _ _ _ => true
  | _ => false

/-- What `wxpay.go` calls but does not define.  `xmlUnmarshal ty body resp` is
`xml.Unmarshal(body, &resp)` for a `resp` of struct type `ty`: the record as the
decoder left it, and the decoder's error. -/
structure Env where
  getNonceStr : Nat → String
  makeSign : Params → String → String
  map2Xml : Params → String
  sendXmlRequest : String → String → String → Option TlsConfig → Int → Except String String
  xmlUnmarshal : RespType → String → Response → Response × Error
  xml2Map : RespType → Response → Except String Params
  jsonMarshal : Params → Except String String
  nowUnix : Int

/-- What a networked operation or `Notify` leaves behind: the two results, the
caller's map as it stands after the call, and the outside calls made, in order. -/
structure Outcome where
  resp : Response
  err : Error
  params : Params
  trace : List Event

/-- How many times the transport was invoked. -/
def Outcome.sends (o : Outcome) : Nat :=
  (o.trace.filter Event.isSend).length

def WXPAY_UNIFIEDORDER_URL : String := "https://api.mch.weixin.qq.com/pay/unifiedorder"
def WXPAY_ORDERQUERY_URL : String := "https://api.mch.weixin.qq.com/pay/orderquery"
def WXPAY_CLOSEORDER_URL : String := "https://api.mch.weixin.qq.com/pay/closeorder"
def WXPAY_REFUNDQUERY_URL : String := "https://api.mch.weixin.qq.com/pay/refundquery"
def WXPAY_REFUND_URL : String := "https://api.mch.weixin.qq.com/secapi/pay/refund"
def WXPAY_MICROPAY_URL : String := "https://api.mch.weixin.qq.com/pay/micropay"
def WXPAY_REVERSE_URL : String := "https://api.mch.weixin.qq.com/secapi/pay/reverse"

/-! ## The operations of `wxpay.go` -/

/-- The function `UnifiedOrder` (wxpay.go 28-92). -/
def UnifiedOrder (env : Env) (config : WxPayConfig) (params : Params) : Outcome :=
  if params.get "out_trade_no" = "" then
    { resp := Response.zero, err := some "缺少统一支付接口必填参数out_trade_no！",
      params := params, trace := [] }
  else if params.get "body" = "" then
    { resp := Response.zero, err := some "缺少统一支付接口必填参数body！",
      params := params, trace := [] }
  else if params.get "total_fee" = "" then
    { resp := Response.zero, err := some "缺少统一支付接口必填参数total_fee！",
      params := params, trace := [] }
  else if config.TradeType = "JSAPI" ∧ params.get "openid" = "" then
    { resp := Response.zero,
      err := some "统一支付接口中，缺少必填参数openid！trade_type为JSAPI时，openid为必填参数！",
      params := params, trace := [] }
  else if config.TradeType = "NATIVE" ∧ params.get "product_id" = "" then
    { resp := Response.zero,
      err := some "统一支付接口中，缺少必填参数product_id！trade_type为JSAPI时，product_id为必填参数！",
      params := params, trace := [] }
  else
    let params := if params.get "notify_url" = "" then
      params.set "notify_url" config.NotifyUrl else params
    let params := if params.get "spbill_create_ip" = "" then
      params.set "spbill_create_ip" config.SpbillCreateIp else params
    let params := params.set "appid" config.AppId
    let params := params.set "mch_id" config.MchId
    let params := params.set "trade_type" config.TradeType
    let params := params.set "nonce_str" (env.getNonceStr 32)
    let params := params.set "sign" (env.makeSign params config.AppKey)
    let xmlString := env.map2Xml params
    let trace := [Event.map2Xml params,
      Event.sendXmlRequest "POST" WXPAY_UNIFIEDORDER_URL xmlString config.TlsConfig config.Timeout]
    match env.sendXmlRequest "POST" WXPAY_UNIFIEDORDER_URL xmlString config.TlsConfig
        config.Timeout with
    | .error e => { resp := Response.zero, err := some e, params := params, trace := trace }
    | .ok body =>
      let decoded := env.xmlUnmarshal .UnifiedOrderResponse body Response.zero
      let resp := decoded.1
      if decoded.2 ≠ none then
        { resp := resp, err := decoded.2, params := params, trace := trace }
      else if resp.ReturnCode ≠ "SUCCESS" then
        { resp := resp, err := some resp.ReturnMsg, params := params, trace := trace }
      else
        match env.xml2Map .UnifiedOrderResponse resp with
        | .error e => { resp := resp, err := some e, params := params, trace := trace }
        | .ok xmlMap =>
          let sign := env.makeSign xmlMap config.AppKey
          if resp.Sign ≠ sign then
            { resp := resp, err := some "sign err", params := params, trace := trace }
          else
            { resp := resp, err := none, params := params, trace := trace }

/-- The function `OrderQuery` (wxpay.go 97-125); the response signature is not checked. -/
def OrderQuery (env : Env) (config : WxPayConfig) (params : Params) : Outcome :=
  if params.get "out_trade_no" = "" ∧ params.get "transaction_id" = "" then
    { resp := Response.zero, err := some "订单查询接口中，out_trade_no、transaction_id至少填一个！",
      params := params, trace := [] }
  else
    let params := params.set "appid" config.AppId
    let params := params.set "mch_id" config.MchId
    let params := params.set "nonce_str" (env.getNonceStr 32)
    let params := params.set "sign" (env.makeSign params config.AppKey)
    let xmlString := env.map2Xml params
    let trace := [Event.map2Xml params,
      Event.sendXmlRequest "POST" WXPAY_ORDERQUERY_URL xmlString config.TlsConfig config.Timeout]
    match env.sendXmlRequest "POST" WXPAY_ORDERQUERY_URL xmlString config.TlsConfig
        config.Timeout with
    | .error e => { resp := Response.zero, err := some e, params := params, trace := trace }
    | .ok body =>
      let decoded := env.xmlUnmarshal .OrderQueryResponse body Response.zero
      let resp := decoded.1
      if decoded.2 ≠ none then
        { resp := resp, err := decoded.2, params := params, trace := trace }
      else if resp.ReturnCode ≠ "SUCCESS" then
        { resp := resp, err := some resp.ReturnMsg, params := params, trace := trace }
      else
        { resp := resp, err := none, params := params, trace := trace }

/-- The function `CloseOrder` (wxpay.go 130-168). -/
def CloseOrder (env : Env) (config : WxPayConfig) (params : Params) : Outcome :=
  if params.get "out_trade_no" = "" then
    { resp := Response.zero, err := some "订单关闭接口中，out_trade_no必填！",
      params := params, trace := [] }
  else
    let params := params.set "appid" config.AppId
    let params := params.set "mch_id" config.MchId
    let params := params.set "nonce_str" (env.getNonceStr 32)
    let params := params.set "sign" (env.makeSign params config.AppKey)
    let xmlString := env.map2Xml params
    let trace := [Event.map2Xml params,
      Event.sendXmlRequest "POST" WXPAY_CLOSEORDER_URL xmlString config.TlsConfig config.Timeout]
    match env.sendXmlRequest "POST" WXPAY_CLOSEORDER_URL xmlString config.TlsConfig
        config.Timeout with
    | .error e => { resp := Response.zero, err := some e, params := params, trace := trace }
    | .ok body =>
      let decoded := env.xmlUnmarshal .CloseOrderResponse body Response.zero
      let resp := decoded.1
      if decoded.2 ≠ none then
        { resp := resp, err := decoded.2, params := params, trace := trace }
      else if resp.ReturnCode ≠ "SUCCESS" then
        { resp := resp, err := some resp.ReturnMsg, params := params, trace := trace }
      else
        match env.xml2Map .CloseOrderResponse resp with
        | .error e => { resp := resp, err := some e, params := params, trace := trace }
        | .ok xmlMap =>
          let sign := env.makeSign xmlMap config.AppKey
          if resp.Sign ≠ sign then
            { resp := resp, err := some "sign err", params := params, trace := trace }
          else
            { resp := resp, err := none, params := params, trace := trace }

/-- The function `Refund` (wxpay.go 173-223). -/
def Refund (env : Env) (config : WxPayConfig) (params : Params) : Outcome :=
  if params.get "out_trade_no" = "" ∧ params.get "transaction_id" = "" then
    { resp := Response.zero, err := some "退款申请接口中，out_trade_no、transaction_id至少填一个！",
      params := params, trace := [] }
  else if params.get "out_refund_no" = "" then
    { resp := Response.zero, err := some "退款申请接口中，缺少必填参数out_refund_no！",
      params := params, trace := [] }
  else if params.get "total_fee" = "" then
    { resp := Response.zero, err := some "款申请接口中，缺少必填参数total_fee！",
      params := params, trace := [] }
  else if params.get "refund_fee" = "" then
    { resp := Response.zero, err := some "退款申请接口中，缺少必填参数refund_fee！",
      params := params, trace := [] }
  else if params.get "op_user_id" = "" then
    { resp := Response.zero, err := some "退款申请接口中，缺少必填参数op_user_id！",
      params := params, trace := [] }
  else
    let params := params.set "appid" config.AppId
    let params := params.set "mch_id" config.MchId
    let params := params.set "nonce_str" (env.getNonceStr 32)
    let params := params.set "sign" (env.makeSign params config.AppKey)
    let xmlString := env.map2Xml params
    let trace := [Event.map2Xml params,
      Event.sendXmlRequest "POST" WXPAY_REFUND_URL xmlString config.TlsConfig config.Timeout]
    match env.sendXmlRequest "POST" WXPAY_REFUND_URL xmlString config.TlsConfig
        config.Timeout with
    | .error e => { resp := Response.zero, err := some e, params := params, trace := trace }
    | .ok body =>
      let decoded := env.xmlUnmarshal .RefundResponse body Response.zero
      let resp := decoded.1
      if decoded.2 ≠ none then
        { resp := resp, err := decoded.2, params := params, trace := trace }
      else if resp.ReturnCode ≠ "SUCCESS" then
        { resp := resp, err := some resp.ReturnMsg, params := params, trace := trace }
      else
        match env.xml2Map .RefundResponse resp with
        | .error e => { resp := resp, err := some e, params := params, trace := trace }
        | .ok xmlMap =>
          let sign := env.makeSign xmlMap config.AppKey
          if resp.Sign ≠ sign then
            { resp := resp, err := some "sign err", params := params, trace := trace }
          else
            { resp := resp, err := none, params := params, trace := trace }

/-- The function `RefundQuery` (wxpay.go 231-262); the response signature is not checked. -/
def RefundQuery (env : Env) (config : WxPayConfig) (params : Params) : Outcome :=
  if params.get "out_refund_no" = "" ∧ params.get "out_trade_no" = "" ∧
      params.get "transaction_id" = "" ∧ params.get "refund_id" = "" then
    { resp := Response.zero, err := some "退款查询接口中，out_refund_no、out_trade_no、transaction_id、refund_id四个参数必填一个！",
      params := params, trace := [] }
  else
    let params := params.set "appid" config.AppId
    let params := params.set "mch_id" config.MchId
    let params := params.set "nonce_str" (env.getNonceStr 32)
    let params := params.set "sign" (env.makeSign params config.AppKey)
    let xmlString := env.map2Xml params
    let trace := [Event.map2Xml params,
      Event.sendXmlRequest "POST" WXPAY_REFUNDQUERY_URL xmlString config.TlsConfig config.Timeout]
    match env.sendXmlRequest "POST" WXPAY_REFUNDQUERY_URL xmlString config.TlsConfig
        config.Timeout with
    | .error e => { resp := Response.zero, err := some e, params := params, trace := trace }
    | .ok body =>
      let decoded := env.xmlUnmarshal .RefundQueryResponse body Response.zero
      let resp := decoded.1
      if decoded.2 ≠ none then
        { resp := resp, err := decoded.2, params := params, trace := trace }
      else if resp.ReturnCode ≠ "SUCCESS" then
        { resp := resp, err := some resp.ReturnMsg, params := params, trace := trace }
      else
        { resp := resp, err := none, params := params, trace := trace }

/-- The function `Notify` (wxpay.go 266-286): no request is built, `body` is what
the gateway pushed.  It has no parameter map; `Outcome.params` is the empty map. -/
def Notify (env : Env) (config : WxPayConfig) (body : String) : Outcome :=
  let decoded := env.xmlUnmarshal .NotifyResponse body Response.zero
  let resp := decoded.1
  if decoded.2 ≠ none then
    { resp := resp, err := decoded.2, params := Params.empty, trace := [] }
  else if resp.ReturnCode ≠ "SUCCESS" then
    { resp := resp, err := some resp.ReturnMsg, params := Params.empty, trace := [] }
  else
    match env.xml2Map .NotifyResponse resp with
    | .error e => { resp := resp, err := some e, params := Params.empty, trace := [] }
    | .ok xmlMap =>
      let sign := env.makeSign xmlMap config.AppKey
      if resp.Sign ≠ sign then
        { resp := resp, err := some "sign err", params := Params.empty, trace := [] }
      else
        { resp := resp, err := none, params := Params.empty, trace := [] }

/-- The format `fmt.Sprintf("%d", n)`: decimal digits, a leading minus sign for a
negative number. -/
def sprintfD (n : Int) : String := toString n

/-- The function `JsApiPay` (wxpay.go 288-302): the serialised object or the
serialiser's error, and the outside calls made. -/
def JsApiPay (env : Env) (config : WxPayConfig) (prepayId : String) :
    (String × Error) × List Event :=
  let jsApiObj := Params.empty
  let jsApiObj := jsApiObj.set "appId" config.AppId
  let timeStamp := sprintfD env.nowUnix
  let jsApiObj := jsApiObj.set "timeStamp" timeStamp
  let jsApiObj := jsApiObj.set "nonceStr" (env.getNonceStr 32)
  let jsApiObj := jsApiObj.set "package" ("prepay_id=" ++ prepayId)
  let jsApiObj := jsApiObj.set "signType" "MD5"
  let jsApiObj := jsApiObj.set "paySign" (env.makeSign jsApiObj config.AppKey)
  match env.jsonMarshal jsApiObj with
  | .error e => (("", some e), [Event.jsonMarshal jsApiObj])
  | .ok body => ((body, none), [Event.jsonMarshal jsApiObj])

/-- The function `AppApiPay` (wxpay.go 311-322): the signed map, and the outside
calls made (none). -/
def AppApiPay (env : Env) (config : WxPayConfig) (prepayId : String) :
    Params × List Event :=
  let timeStamp := sprintfD env.nowUnix
  let appApiObj := Params.empty
  let appApiObj := appApiObj.set "appid" config.AppId
  let appApiObj := appApiObj.set "partnerid" config.MchId
  let appApiObj := appApiObj.set "prepayid" prepayId
  let appApiObj := appApiObj.set "package" "Sign=WXPay"
  let appApiObj := appApiObj.set "noncestr" (env.getNonceStr 32)
  let appApiObj := appApiObj.set "timestamp" timeStamp
  let appApiObj := appApiObj.set "sign" (env.makeSign appApiObj config.AppKey)
  (appApiObj, [])

/-- The function `MicroPay` (wxpay.go 325-372). -/
def MicroPay (env : Env) (config : WxPayConfig) (params : Params) : Outcome :=
  if params.get "out_trade_no" = "" then
    { resp := Response.zero, err := some "缺少刷卡支付接口必填参数out_trade_no！",
      params := params, trace := [] }
  else if params.get "body" = "" then
    { resp := Response.zero, err := some "缺少刷卡支付接口必填参数body！",
      params := params, trace := [] }
  else if params.get "total_fee" = "" then
    { resp := Response.zero, err := some "缺少刷卡支付接口必填参数total_fee！",
      params := params, trace := [] }
  else if params.get "auth_code" = "" then
    { resp := Response.zero, err := some "缺少刷卡支付接口必填参数auth_code！",
      params := params, trace := [] }
  else
    let params := if params.get "spbill_create_ip" = "" then
      params.set "spbill_create_ip" config.SpbillCreateIp else params
    let params := params.set "appid" config.AppId
    let params := params.set "mch_id" config.MchId
    let params := params.set "trade_type" config.TradeType
    let params := params.set "nonce_str" (env.getNonceStr 32)
    let params := params.set "sign" (env.makeSign params config.AppKey)
    let xmlString := env.map2Xml params
    let trace := [Event.map2Xml params,
      Event.sendXmlRequest "POST" WXPAY_MICROPAY_URL xmlString config.TlsConfig config.Timeout]
    match env.sendXmlRequest "POST" WXPAY_MICROPAY_URL xmlString config.TlsConfig
        config.Timeout with
    | .error e => { resp := Response.zero, err := some e, params := params, trace := trace }
    | .ok body =>
      let decoded := env.xmlUnmarshal .MicroPayResponse body Response.zero
      let resp := decoded.1
      if decoded.2 ≠ none then
        { resp := resp, err := decoded.2, params := params, trace := trace }
      else if resp.ReturnCode ≠ "SUCCESS" then
        { resp := resp, err := some resp.ReturnMsg, params := params, trace := trace }
      else
        match env.xml2Map .MicroPayResponse resp with
        | .error e => { resp := resp, err := some e, params := params, trace := trace }
        | .ok xmlMap =>
          let sign := env.makeSign xmlMap config.AppKey
          if resp.Sign ≠ sign then
            { resp := resp, err := some "sign err", params := params, trace := trace }
          else
            { resp := resp, err := none, params := params, trace := trace }

/-- The function `ReverseOrder` (wxpay.go 375-412). -/
def ReverseOrder (env : Env) (config : WxPayConfig) (params : Params) : Outcome :=
  if params.get "out_trade_no" = "" ∧ params.get "transaction_id" = "" then
    { resp := Response.zero, err := some "订单撤销接口中，out_trade_no、transaction_id至少填一个！",
      params := params, trace := [] }
  else
    let params := params.set "appid" config.AppId
    let params := params.set "mch_id" config.MchId
    let params := params.set "nonce_str" (env.getNonceStr 32)
    let params := params.set "sign" (env.makeSign params config.AppKey)
    let xmlString := env.map2Xml params
    let trace := [Event.map2Xml params,
      Event.sendXmlRequest "POST" WXPAY_REVERSE_URL xmlString config.TlsConfig config.Timeout]
    match env.sendXmlRequest "POST" WXPAY_REVERSE_URL xmlString config.TlsConfig
        config.Timeout with
    | .error e => { resp := Response.zero, err := some e, params := params, trace := trace }
    | .ok body =>
      let decoded := env.xmlUnmarshal .ReverseOrderResponse body Response.zero
      let resp := decoded.1
      if decoded.2 ≠ none then
        { resp := resp, err := decoded.2, params := params, trace := trace }
      else if resp.ReturnCode ≠ "SUCCESS" then
        { resp := resp, err := some resp.ReturnMsg, params := params, trace := trace }
      else
        match env.xml2Map .ReverseOrderResponse resp with
        | .error e => { resp := resp, err := some e, params := params, trace := trace }
        | .ok xmlMap =>
          let sign := env.makeSign xmlMap config.AppKey
          if resp.Sign ≠ sign then
            { resp := resp, err := some "sign err", params := params, trace := trace }
          else
            { resp := resp, err := none, params := params, trace := trace }

/-! ## The signer, from the spec -/

/-- Every letter of a string in upper case. -/
def upperCase (s : String) : String :=
  String.mk (s.data.map Char.toUpper)

/-- The ascending order of spec 4.2 on keys: lexicographic by character code,
which on UTF-8 text is the byte-wise order. -/
def asciiLE : List Char → List Char → Bool
  | [], _ => true
  | _ :: _, [] => false
  | a :: as, b :: bs => a.toNat < b.toNat || (a.toNat = b.toNat && asciiLE as bs)

/-- Modelled from the spec: `makeSign` is called by `wxpay.go` but defined in
neither `wxpay.go` nor `config.go`.  Spec 4.2 (CanonicalSigner): select the entries
whose key is not the reserved signature-field name and whose value is non-empty;
sort the selected keys in ascending order; concatenate `key=value&` for each;
append `key=` and the secret; digest; render as uppercase hexadecimal.  The
digest (MD5 rendered as hexadecimal, from the Go library) is the argument
`md5Hex`. -/
def makeSign (md5Hex : String → String) (parameters : Params) (secretKey : String) : String :=
  let selected := parameters.entries.filter (fun e => e.1 ≠ "sign" ∧ e.2 ≠ "")
  let sorted := selected.insertionSort (fun a b => asciiLE a.1.data b.1.data)
  let str := String.join (sorted.map (fun e => e.1 ++ "=" ++ e.2 ++ "&")) ++ "key=" ++ secretKey
  upperCase (md5Hex str)

/-- The environment in which the signer is the one of spec 4.2 over the digest
`md5Hex`; everything else is as in `env`. -/
def Env.withSigner (env : Env) (md5Hex : String → String) : Env :=
  { env with makeSign := Wxpay.makeSign md5Hex }

/-- The other non-empty fields of a set: every entry but the one of `sign` and
those with an empty value. -/
def Params.others (m : Params) : Params :=
  m.filter (fun e => e.1 ≠ "sign" ∧ e.2 ≠ "")

/-! ## The operations as a family -/

/-- The seven networked operations. -/
inductive NetOp
  | UnifiedOrder
  | OrderQuery
  | CloseOrder
  | Refund
  | RefundQuery
  | MicroPay
  | ReverseOrder
deriving DecidableEq, Repr

namespace NetOp

/-- The Go function an operation stands for. -/
def run : NetOp → Env → WxPayConfig → Params → Outcome
  | .UnifiedOrder => Wxpay.UnifiedOrder
  | .OrderQuery => Wxpay.OrderQuery
  | .CloseOrder => Wxpay.CloseOrder
  | .Refund => Wxpay.Refund
  | .RefundQuery => Wxpay.RefundQuery
  | .MicroPay => Wxpay.MicroPay
  | .ReverseOrder => Wxpay.ReverseOrder

/-- The struct an operation decodes its response into. -/
def respType : NetOp → RespType
  | .UnifiedOrder => .UnifiedOrderResponse
  | .OrderQuery => .OrderQueryResponse
  | .CloseOrder => .CloseOrderResponse
  | .Refund => .RefundResponse
  | .RefundQuery => .RefundQueryResponse
  | .MicroPay => .MicroPayResponse
  | .ReverseOrder => .ReverseOrderResponse

/-- The endpoint an operation posts to. -/
def url : NetOp → String
  | .UnifiedOrder => WXPAY_UNIFIEDORDER_URL
  | .OrderQuery => WXPAY_ORDERQUERY_URL
  | .CloseOrder => WXPAY_CLOSEORDER_URL
  | .Refund => WXPAY_REFUND_URL
  | .RefundQuery => WXPAY_REFUNDQUERY_URL
  | .MicroPay => WXPAY_MICROPAY_URL
  | .ReverseOrder => WXPAY_REVERSE_URL

/-- The verifying operations among the seven, as the spec lists them: all but
order-query and refund-query. -/
def verifies : NetOp → Bool
  | .OrderQuery => false
  | .RefundQuery => false
  | _ => true

/-- The failing required-field check of each operation, as the specification
lists it. -/
def missing : NetOp → WxPayConfig → Params → Prop
  | .OrderQuery, _, params =>
    params.get "out_trade_no" = "" ∧ params.get "transaction_id" = ""
  | .ReverseOrder, _, params =>
    params.get "out_trade_no" = "" ∧ params.get "transaction_id" = ""
  | .CloseOrder, _, params => params.get "out_trade_no" = ""
  | .Refund, _, params =>
    (params.get "out_trade_no" = "" ∧ params.get "transaction_id" = "") ∨
      params.get "out_refund_no" = "" ∨ params.get "total_fee" = "" ∨
      params.get "refund_fee" = "" ∨ params.get "op_user_id" = ""
  | .RefundQuery, _, params =>
    params.get "out_refund_no" = "" ∧ params.get "out_trade_no" = "" ∧
      params.get "transaction_id" = "" ∧ params.get "refund_id" = ""
  | .UnifiedOrder, config, params =>
    params.get "out_trade_no" = "" ∨ params.get "body" = "" ∨ params.get "total_fee" = "" ∨
      (config.TradeType = "JSAPI" ∧ params.get "openid" = "") ∨
      (config.TradeType = "NATIVE" ∧ params.get "product_id" = "")
  | .MicroPay, _, params =>
    params.get "out_trade_no" = "" ∨ params.get "body" = "" ∨ params.get "total_fee" = "" ∨
      params.get "auth_code" = ""

instance (op : NetOp) (config : WxPayConfig) (params : Params) :
    Decidable (op.missing config params) := by
  cases op <;> unfold missing <;> infer_instance

/-- The context keys an operation writes before it signs. -/
def contextKeys : NetOp → List String
  | .UnifiedOrder => ["appid", "mch_id", "trade_type", "nonce_str"]
  | .MicroPay => ["appid", "mch_id", "trade_type", "nonce_str"]
  | _ => ["appid", "mch_id", "nonce_str"]

/-- The keys an operation fills from the config when the caller left them blank. -/
def defaultedKeys : NetOp → List String
  | .UnifiedOrder => ["notify_url", "spbill_create_ip"]
  | .MicroPay => ["spbill_create_ip"]
  | _ => []

end NetOp

/-- The bodies the transport returned for the requests in a trace. -/
def Event.answer (env : Env) : Event → Option String
  | .sendXmlRequest method url xmlString tlsConfig timeout =>
    match env.sendXmlRequest method url xmlString tlsConfig timeout with
    | .ok body => some body
    | .error _ => none
  | _ => none

/-- The response bodies an operation received from the transport. -/
def Outcome.received (env : Env) (o : Outcome) : List String :=
  o.trace.filterMap (Event.answer env)

/-! ## A concrete environment -/

/-- A response flattened by its XML names; fields left empty are skipped. -/
def flattenResponse (_ : RespType) (resp : Response) : Except String Params :=
  .ok (Params.ofList
    (([("return_code", resp.ReturnCode), ("return_msg", resp.ReturnMsg), ("sign", resp.Sign)] ++
      resp.fields).filter (fun e => e.2 ≠ "")))

/-- A gateway that answers every request with one fixed record: the transport
returns `reply.1`, the decoder reads it as `reply.2`.  The digest is the
identity, so a signature is the canonical string in upper case. -/
def fixedGateway (reply : String × Response) : Env where
  getNonceStr := fun n => String.mk (List.replicate n 'n')
  makeSign := makeSign (fun s => s)
  map2Xml := fun p => String.join (p.entries.map (fun e => "<" ++ e.1 ++ ">" ++ e.2))
  sendXmlRequest := fun _ _ _ _ _ => .ok reply.1
  xmlUnmarshal := fun _ body _ =>
    if body = reply.1 then (reply.2, none) else (Response.zero, some "EOF")
  xml2Map := flattenResponse
  jsonMarshal := fun p => .ok (String.join (p.entries.map (fun e => e.1 ++ ":" ++ e.2 ++ ",")))
  nowUnix := 1412000000

/-- The config of `demo/main.go`. -/
def demoConfig : WxPayConfig :=
  { AppId := "wx8a92954451ec0dfa"
    MchId := "1317382401"
    AppKey := "y7c2743910e94b220b0048af87437881"
    TradeType := "APP"
    SpbillCreateIp := ""
    NotifyUrl := "http://test.ckb.mobi"
    TlsConfig := none
    Timeout := 0 }

/-- The parameters of `demo/main.go`. -/
def demoParams : Params :=
  Params.ofList [("out_trade_no", "1000000000000"), ("body", "test"), ("total_fee", "100")]

/-- The demo config with the account identifier left unset. -/
def blankAppIdConfig : WxPayConfig :=
  { demoConfig with AppId := "" }

/-- The demo config with the trade type left unset. -/
def unsetTradeTypeConfig : WxPayConfig :=
  { demoConfig with TradeType := "" }

/-- The demo parameters with a trade type supplied by the caller. -/
def tradeTypeParams : Params :=
  Params.ofList [("out_trade_no", "1000000000000"), ("body", "test"), ("total_fee", "100"),
    ("trade_type", "APP")]

/-- Parameters that already hold a sign entry and a callback URL. -/
def staleSignParams : Params :=
  Params.ofList [("out_trade_no", "1000000000000"), ("body", "test"), ("total_fee", "100"),
    ("auth_code", "120061098828009406"), ("notify_url", "http://caller.example/cb"),
    ("sign", "STALE")]

/-- A reply whose status is the success sentinel and whose signature is wrong. -/
def forgedReply : String × Response :=
  ("<xml>forged</xml>",
    { ReturnCode := "SUCCESS", ReturnMsg := "OK", Sign := "0000", fields := [] })

/-- A reply whose status is the success sentinel and whose signature is the one
`makeSign` computes under the demo key. -/
def signedReply : String × Response :=
  ("<xml>signed</xml>",
    { ReturnCode := "SUCCESS", ReturnMsg := "OK",
      Sign := "RETURN_CODE=SUCCESS&RETURN_MSG=OK&KEY=Y7C2743910E94B220B0048AF87437881",
      fields := [] })

/-- A reply that reports a business failure. -/
def failReply : String × Response :=
  ("<xml>fail</xml>",
    { ReturnCode := "FAIL", ReturnMsg := "签名错误", Sign := "", fields := [] })

/-! ## The common shape of the seven operations

The seven functions repeat one body.  The definitions below name its parts; the
lemmas `NetOp.run_missing` and `NetOp.run_valid` show that each transcribed
function is this body. -/

/-- The map after the defaulting and context writes of an operation, before the
signature is written. -/
def NetOp.context (op : NetOp) (env : Env) (config : WxPayConfig) (params : Params) : Params :=
  match op with
  | .UnifiedOrder =>
    let params := if params.get "notify_url" = "" then
      params.set "notify_url" config.NotifyUrl else params
    let params := if params.get "spbill_create_ip" = "" then
      params.set "spbill_create_ip" config.SpbillCreateIp else params
    (((params.set "appid" config.AppId).set "mch_id" config.MchId).set
      "trade_type" config.TradeType).set "nonce_str" (env.getNonceStr 32)
  | .MicroPay =>
    let params := if params.get "spbill_create_ip" = "" then
      params.set "spbill_create_ip" config.SpbillCreateIp else params
    (((params.set "appid" config.AppId).set "mch_id" config.MchId).set
      "trade_type" config.TradeType).set "nonce_str" (env.getNonceStr 32)
  | _ =>
    ((params.set "appid" config.AppId).set "mch_id" config.MchId).set
      "nonce_str" (env.getNonceStr 32)

/-- The map with the signature written: what is encoded and sent. -/
def NetOp.signed (op : NetOp) (env : Env) (config : WxPayConfig) (params : Params) : Params :=
  (op.context env config params).set "sign"
    (env.makeSign (op.context env config params) config.AppKey)

/-- The handling of a response body: decode, check the status, and when `verify`
is set recompute and compare the signature. -/
def respond (env : Env) (config : WxPayConfig) (ty : RespType) (verify : Bool)
    (body : String) : Response × Error :=
  let decoded := env.xmlUnmarshal ty body Response.zero
  if decoded.2 ≠ none then (decoded.1, decoded.2)
  else if decoded.1.ReturnCode ≠ "SUCCESS" then (decoded.1, some decoded.1.ReturnMsg)
  else if verify then
    match env.xml2Map ty decoded.1 with
    | .error e => (decoded.1, some e)
    | .ok xmlMap =>
      if decoded.1.Sign ≠ env.makeSign xmlMap config.AppKey then (decoded.1, some "sign err")
      else (decoded.1, none)
  else (decoded.1, none)

/-- The request an operation sends for a signed map. -/
def NetOp.request (op : NetOp) (env : Env) (config : WxPayConfig) (signed : Params) : Event :=
  Event.sendXmlRequest "POST" op.url (env.map2Xml signed) config.TlsConfig config.Timeout

/-- Encode, send, and handle the answer. -/
def NetOp.exchange (op : NetOp) (env : Env) (config : WxPayConfig) (signed : Params) : Outcome :=
  match env.sendXmlRequest "POST" op.url (env.map2Xml signed) config.TlsConfig config.Timeout with
  | .error e =>
    { resp := Response.zero, err := some e, params := signed,
      trace := [Event.map2Xml signed, op.request env config signed] }
  | .ok body =>
    { resp := (respond env config op.respType op.verifies body).1,
      err := (respond env config op.respType op.verifies body).2,
      params := signed,
      trace := [Event.map2Xml signed, op.request env config signed] }

/-! ## Lemmas on maps -/

namespace Params

theorem lookup_set_eq (m : Params) (k v : String) : (m.set k v).lookup k = some v := by
  simp [set, lookup]

theorem lookup_set_ne (m : Params) (k v k2 : String) (h : k2 ≠ k) :
    (m.set k v).lookup k2 = m.lookup k2 := by
  have hk : ¬ k = k2 := fun e => h e.symm
  obtain ⟨l, hl⟩ := m
  simp only [set, lookup]
  rw [List.find?_cons_of_neg _ (by simpa using hk)]
  congr 1
  rw [List.find?_filter]
  congr 1
  funext a
  by_cases h2 : a.1 = k2
  · simp [h2, h]
  · simp [h2]

theorem get_set_eq (m : Params) (k v : String) : (m.set k v).get k = v := by
  simp [get, lookup_set_eq]

theorem get_set_ne (m : Params) (k v k2 : String) (h : k2 ≠ k) :
    (m.set k v).get k2 = m.get k2 := by
  simp [get, lookup_set_ne m k v k2 h]

end Params

/-! ## Each operation is the common body -/

theorem exchange_verifying (op : NetOp) (hv : op.verifies = true) (env : Env)
    (config : WxPayConfig) (params : Params) :
    op.exchange env config params =
      (match env.sendXmlRequest "POST" op.url (env.map2Xml params) config.TlsConfig
          config.Timeout with
      | .error e =>
        { resp := Response.zero, err := some e, params := params,
          trace := [Event.map2Xml params, Event.sendXmlRequest "POST" op.url
            (env.map2Xml params) config.TlsConfig config.Timeout] }
      | .ok body =>
        if (env.xmlUnmarshal op.respType body Response.zero).2 ≠ none then
          { resp := (env.xmlUnmarshal op.respType body Response.zero).1,
            err := (env.xmlUnmarshal op.respType body Response.zero).2, params := params,
            trace := [Event.map2Xml params, Event.sendXmlRequest "POST" op.url
              (env.map2Xml params) config.TlsConfig config.Timeout] }
        else if (env.xmlUnmarshal op.respType body Response.zero).1.ReturnCode ≠ "SUCCESS" then
          { resp := (env.xmlUnmarshal op.respType body Response.zero).1,
            err := some (env.xmlUnmarshal op.respType body Response.zero).1.ReturnMsg,
            params := params,
            trace := [Event.map2Xml params, Event.sendXmlRequest "POST" op.url
              (env.map2Xml params) config.TlsConfig config.Timeout] }
        else
          match env.xml2Map op.respType (env.xmlUnmarshal op.respType body Response.zero).1 with
          | .error e =>
            { resp := (env.xmlUnmarshal op.respType body Response.zero).1, err := some e,
              params := params,
              trace := [Event.map2Xml params, Event.sendXmlRequest "POST" op.url
                (env.map2Xml params) config.TlsConfig config.Timeout] }
          | .ok xmlMap =>
            if (env.xmlUnmarshal op.respType body Response.zero).1.Sign ≠
                env.makeSign xmlMap config.AppKey then
              { resp := (env.xmlUnmarshal op.respType body Response.zero).1,
                err := some "sign err", params := params,
                trace := [Event.map2Xml params, Event.sendXmlRequest "POST" op.url
                  (env.map2Xml params) config.TlsConfig config.Timeout] }
            else
              { resp := (env.xmlUnmarshal op.respType body Response.zero).1, err := none,
                params := params,
                trace := [Event.map2Xml params, Event.sendXmlRequest "POST" op.url
                  (env.map2Xml params) config.TlsConfig config.Timeout] }) := by
  unfold NetOp.exchange respond NetOp.request
  rw [hv]
  cases env.sendXmlRequest "POST" op.url (env.map2Xml params) config.TlsConfig config.Timeout with
  | error e => rfl
  | ok body =>
    dsimp only
    rw [if_pos rfl]
    split_ifs with h1 h2
    · rfl
    · rfl
    · cases env.xml2Map op.respType (env.xmlUnmarshal op.respType body Response.zero).1 with
      | error e => rfl
      | ok xmlMap =>
        dsimp only
        split_ifs <;> rfl

theorem exchange_unverified (op : NetOp) (hv : op.verifies = false) (env : Env)
    (config : WxPayConfig) (params : Params) :
    op.exchange env config params =
      (match env.sendXmlRequest "POST" op.url (env.map2Xml params) config.TlsConfig
          config.Timeout with
      | .error e =>
        { resp := Response.zero, err := some e, params := params,
          trace := [Event.map2Xml params, Event.sendXmlRequest "POST" op.url
            (env.map2Xml params) config.TlsConfig config.Timeout] }
      | .ok body =>
        if (env.xmlUnmarshal op.respType body Response.zero).2 ≠ none then
          { resp := (env.xmlUnmarshal op.respType body Response.zero).1,
            err := (env.xmlUnmarshal op.respType body Response.zero).2, params := params,
            trace := [Event.map2Xml params, Event.sendXmlRequest "POST" op.url
              (env.map2Xml params) config.TlsConfig config.Timeout] }
        else if (env.xmlUnmarshal op.respType body Response.zero).1.ReturnCode ≠ "SUCCESS" then
          { resp := (env.xmlUnmarshal op.respType body Response.zero).1,
            err := some (env.xmlUnmarshal op.respType body Response.zero).1.ReturnMsg,
            params := params,
            trace := [Event.map2Xml params, Event.sendXmlRequest "POST" op.url
              (env.map2Xml params) config.TlsConfig config.Timeout] }
        else
          { resp := (env.xmlUnmarshal op.respType body Response.zero).1, err := none,
            params := params,
            trace := [Event.map2Xml params, Event.sendXmlRequest "POST" op.url
              (env.map2Xml params) config.TlsConfig config.Timeout] }) := by
  unfold NetOp.exchange respond NetOp.request
  rw [hv]
  cases env.sendXmlRequest "POST" op.url (env.map2Xml params) config.TlsConfig config.Timeout with
  | error e => rfl
  | ok body =>
    dsimp only
    split_ifs <;> first | rfl | simp_all

theorem UnifiedOrder_missing (env : Env) (config : WxPayConfig) (params : Params)
    (h : NetOp.UnifiedOrder.missing config params) :
    ∃ msg, UnifiedOrder env config params =
      { resp := Response.zero, err := some msg, params := params, trace := [] } := by
  unfold NetOp.missing at h
  unfold UnifiedOrder
  by_cases h1 : params.get "out_trade_no" = ""
  · rw [if_pos h1]; exact ⟨_, rfl⟩
  rw [if_neg h1]
  by_cases h2 : params.get "body" = ""
  · rw [if_pos h2]; exact ⟨_, rfl⟩
  rw [if_neg h2]
  by_cases h3 : params.get "total_fee" = ""
  · rw [if_pos h3]; exact ⟨_, rfl⟩
  rw [if_neg h3]
  by_cases h4 : config.TradeType = "JSAPI" ∧ params.get "openid" = ""
  · rw [if_pos h4]; exact ⟨_, rfl⟩
  rw [if_neg h4]
  by_cases h5 : config.TradeType = "NATIVE" ∧ params.get "product_id" = ""
  · rw [if_pos h5]; exact ⟨_, rfl⟩
  rw [if_neg h5]
  exfalso; tauto

theorem UnifiedOrder_valid (env : Env) (config : WxPayConfig) (params : Params)
    (h : ¬ NetOp.UnifiedOrder.missing config params) :
    UnifiedOrder env config params =
      NetOp.UnifiedOrder.exchange env config (NetOp.UnifiedOrder.signed env config params) := by
  unfold NetOp.missing at h
  unfold UnifiedOrder
  rw [if_neg (show ¬ (params.get "out_trade_no" = "") by tauto)]
  rw [if_neg (show ¬ (params.get "body" = "") by tauto)]
  rw [if_neg (show ¬ (params.get "total_fee" = "") by tauto)]
  rw [if_neg (show ¬ (config.TradeType = "JSAPI" ∧ params.get "openid" = "") by tauto)]
  rw [if_neg (show ¬ (config.TradeType = "NATIVE" ∧ params.get "product_id" = "") by tauto)]
  exact (exchange_verifying NetOp.UnifiedOrder rfl env config _).symm

theorem OrderQuery_missing (env : Env) (config : WxPayConfig) (params : Params)
    (h : NetOp.OrderQuery.missing config params) :
    ∃ msg, OrderQuery env config params =
      { resp := Response.zero, err := some msg, params := params, trace := [] } := by
  unfold NetOp.missing at h
  unfold OrderQuery
  by_cases h1 : params.get "out_trade_no" = "" ∧ params.get "transaction_id" = ""
  · rw [if_pos h1]; exact ⟨_, rfl⟩
  rw [if_neg h1]
  exfalso; tauto

theorem OrderQuery_valid (env : Env) (config : WxPayConfig) (params : Params)
    (h : ¬ NetOp.OrderQuery.missing config params) :
    OrderQuery env config params =
      NetOp.OrderQuery.exchange env config (NetOp.OrderQuery.signed env config params) := by
  unfold NetOp.missing at h
  unfold OrderQuery
  rw [if_neg (show ¬ (params.get "out_trade_no" = "" ∧ params.get "transaction_id" = "") by tauto)]
  exact (exchange_unverified NetOp.OrderQuery rfl env config _).symm

theorem CloseOrder_missing (env : Env) (config : WxPayConfig) (params : Params)
    (h : NetOp.CloseOrder.missing config params) :
    ∃ msg, CloseOrder env config params =
      { resp := Response.zero, err := some msg, params := params, trace := [] } := by
  unfold NetOp.missing at h
  unfold CloseOrder
  by_cases h1 : params.get "out_trade_no" = ""
  · rw [if_pos h1]; exact ⟨_, rfl⟩
  rw [if_neg h1]
  exfalso; tauto

theorem CloseOrder_valid (env : Env) (config : WxPayConfig) (params : Params)
    (h : ¬ NetOp.CloseOrder.missing config params) :
    CloseOrder env config params =
      NetOp.CloseOrder.exchange env config (NetOp.CloseOrder.signed env config params) := by
  unfold NetOp.missing at h
  unfold CloseOrder
  rw [if_neg (show ¬ (params.get "out_trade_no" = "") by tauto)]
  exact (exchange_verifying NetOp.CloseOrder rfl env config _).symm

theorem Refund_missing (env : Env) (config : WxPayConfig) (params : Params)
    (h : NetOp.Refund.missing config params) :
    ∃ msg, Refund env config params =
      { resp := Response.zero, err := some msg, params := params, trace := [] } := by
  unfold NetOp.missing at h
  unfold Refund
  by_cases h1 : params.get "out_trade_no" = "" ∧ params.get "transaction_id" = ""
  · rw [if_pos h1]; exact ⟨_, rfl⟩
  rw [if_neg h1]
  by_cases h2 : params.get "out_refund_no" = ""
  · rw [if_pos h2]; exact ⟨_, rfl⟩
  rw [if_neg h2]
  by_cases h3 : params.get "total_fee" = ""
  · rw [if_pos h3]; exact ⟨_, rfl⟩
  rw [if_neg h3]
  by_cases h4 : params.get "refund_fee" = ""
  · rw [if_pos h4]; exact ⟨_, rfl⟩
  rw [if_neg h4]
  by_cases h5 : params.get "op_user_id" = ""
  · rw [if_pos h5]; exact ⟨_, rfl⟩
  rw [if_neg h5]
  exfalso; tauto

theorem Refund_valid (env : Env) (config : WxPayConfig) (params : Params)
    (h : ¬ NetOp.Refund.missing config params) :
    Refund env config params =
      NetOp.Refund.exchange env config (NetOp.Refund.signed env config params) := by
  unfold NetOp.missing at h
  unfold Refund
  rw [if_neg (show ¬ (params.get "out_trade_no" = "" ∧ params.get "transaction_id" = "") by tauto)]
  rw [if_neg (show ¬ (params.get "out_refund_no" = "") by tauto)]
  rw [if_neg (show ¬ (params.get "total_fee" = "") by tauto)]
  rw [if_neg (show ¬ (params.get "refund_fee" = "") by tauto)]
  rw [if_neg (show ¬ (params.get "op_user_id" = "") by tauto)]
  exact (exchange_verifying NetOp.Refund rfl env config _).symm

theorem RefundQuery_missing (env : Env) (config : WxPayConfig) (params : Params)
    (h : NetOp.RefundQuery.missing config params) :
    ∃ msg, RefundQuery env config params =
      { resp := Response.zero, err := some msg, params := params, trace := [] } := by
  unfold NetOp.missing at h
  unfold RefundQuery
  by_cases h1 : params.get "out_refund_no" = "" ∧ params.get "out_trade_no" = "" ∧
      params.get "transaction_id" = "" ∧ params.get "refund_id" = ""
  · rw [if_pos h1]; exact ⟨_, rfl⟩
  rw [if_neg h1]
  exfalso; tauto

theorem RefundQuery_valid (env : Env) (config : WxPayConfig) (params : Params)
    (h : ¬ NetOp.RefundQuery.missing config params) :
    RefundQuery env config params =
      NetOp.RefundQuery.exchange env config (NetOp.RefundQuery.signed env config params) := by
  unfold NetOp.missing at h
  unfold RefundQuery
  rw [if_neg (show ¬ (params.get "out_refund_no" = "" ∧ params.get "out_trade_no" = "" ∧
      params.get "transaction_id" = "" ∧ params.get "refund_id" = "") by tauto)]
  exact (exchange_unverified NetOp.RefundQuery rfl env config _).symm

theorem MicroPay_missing (env : Env) (config : WxPayConfig) (params : Params)
    (h : NetOp.MicroPay.missing config params) :
    ∃ msg, MicroPay env config params =
      { resp := Response.zero, err := some msg, params := params, trace := [] } := by
  unfold NetOp.missing at h
  unfold MicroPay
  by_cases h1 : params.get "out_trade_no" = ""
  · rw [if_pos h1]; exact ⟨_, rfl⟩
  rw [if_neg h1]
  by_cases h2 : params.get "body" = ""
  · rw [if_pos h2]; exact ⟨_, rfl⟩
  rw [if_neg h2]
  by_cases h3 : params.get "total_fee" = ""
  · rw [if_pos h3]; exact ⟨_, rfl⟩
  rw [if_neg h3]
  by_cases h4 : params.get "auth_code" = ""
  · rw [if_pos h4]; exact ⟨_, rfl⟩
  rw [if_neg h4]
  exfalso; tauto

theorem MicroPay_valid (env : Env) (config : WxPayConfig) (params : Params)
    (h : ¬ NetOp.MicroPay.missing config params) :
    MicroPay env config params =
      NetOp.MicroPay.exchange env config (NetOp.MicroPay.signed env config params) := by
  unfold NetOp.missing at h
  unfold MicroPay
  rw [if_neg (show ¬ (params.get "out_trade_no" = "") by tauto)]
  rw [if_neg (show ¬ (params.get "body" = "") by tauto)]
  rw [if_neg (show ¬ (params.get "total_fee" = "") by tauto)]
  rw [if_neg (show ¬ (params.get "auth_code" = "") by tauto)]
  exact (exchange_verifying NetOp.MicroPay rfl env config _).symm

theorem ReverseOrder_missing (env : Env) (config : WxPayConfig) (params : Params)
    (h : NetOp.ReverseOrder.missing config params) :
    ∃ msg, ReverseOrder env config params =
      { resp := Response.zero, err := some msg, params := params, trace := [] } := by
  unfold NetOp.missing at h
  unfold ReverseOrder
  by_cases h1 : params.get "out_trade_no" = "" ∧ params.get "transaction_id" = ""
  · rw [if_pos h1]; exact ⟨_, rfl⟩
  rw [if_neg h1]
  exfalso; tauto

theorem ReverseOrder_valid (env : Env) (config : WxPayConfig) (params : Params)
    (h : ¬ NetOp.ReverseOrder.missing config params) :
    ReverseOrder env config params =
      NetOp.ReverseOrder.exchange env config (NetOp.ReverseOrder.signed env config params) := by
  unfold NetOp.missing at h
  unfold ReverseOrder
  rw [if_neg (show ¬ (params.get "out_trade_no" = "" ∧ params.get "transaction_id" = "") by tauto)]
  exact (exchange_verifying NetOp.ReverseOrder rfl env config _).symm

theorem NetOp.run_missing (op : NetOp) (env : Env) (config : WxPayConfig) (params : Params)
    (h : op.missing config params) :
    ∃ msg, op.run env config params =
      { resp := Response.zero, err := some msg, params := params, trace := [] } := by
  cases op
  · exact UnifiedOrder_missing env config params h
  · exact OrderQuery_missing env config params h
  · exact CloseOrder_missing env config params h
  · exact Refund_missing env config params h
  · exact RefundQuery_missing env config params h
  · exact MicroPay_missing env config params h
  · exact ReverseOrder_missing env config params h

theorem NetOp.run_valid (op : NetOp) (env : Env) (config : WxPayConfig) (params : Params)
    (h : ¬ op.missing config params) :
    op.run env config params = op.exchange env config (op.signed env config params) := by
  cases op
  · exact UnifiedOrder_valid env config params h
  · exact OrderQuery_valid env config params h
  · exact CloseOrder_valid env config params h
  · exact Refund_valid env config params h
  · exact RefundQuery_valid env config params h
  · exact MicroPay_valid env config params h
  · exact ReverseOrder_valid env config params h

theorem Notify_eq (env : Env) (config : WxPayConfig) (body : String) :
    Notify env config body =
      { resp := (respond env config .NotifyResponse true body).1,
        err := (respond env config .NotifyResponse true body).2,
        params := Params.empty, trace := [] } := by
  unfold Notify respond
  dsimp only
  rw [if_pos rfl]
  split_ifs with h1 h2
  · rfl
  · rfl
  · cases env.xml2Map .NotifyResponse (env.xmlUnmarshal .NotifyResponse body Response.zero).1 with
    | error e => rfl
    | ok xmlMap =>
      dsimp only
      split_ifs <;> rfl

/-! ## Facts about the response handling -/

theorem respond_fst (env : Env) (config : WxPayConfig) (ty : RespType) (verify : Bool)
    (body : String) :
    (respond env config ty verify body).1 = (env.xmlUnmarshal ty body Response.zero).1 := by
  unfold respond
  dsimp only
  split_ifs
  · rfl
  · rfl
  · cases env.xml2Map ty (env.xmlUnmarshal ty body Response.zero).1 with
    | error e => rfl
    | ok xmlMap =>
      dsimp only
      split_ifs <;> rfl
  · rfl

theorem respond_decode_error (env : Env) (config : WxPayConfig) (ty : RespType) (verify : Bool)
    (body : String) (h : (env.xmlUnmarshal ty body Response.zero).2 ≠ none) :
    (respond env config ty verify body).2 = (env.xmlUnmarshal ty body Response.zero).2 := by
  unfold respond
  dsimp only
  rw [if_pos h]

theorem respond_status (env : Env) (config : WxPayConfig) (ty : RespType) (verify : Bool)
    (body : String) (h : (env.xmlUnmarshal ty body Response.zero).2 = none)
    (hc : (env.xmlUnmarshal ty body Response.zero).1.ReturnCode ≠ "SUCCESS") :
    (respond env config ty verify body).2 =
      some (env.xmlUnmarshal ty body Response.zero).1.ReturnMsg := by
  unfold respond
  dsimp only
  rw [if_neg (by simp [h]), if_pos hc]

theorem respond_unverified (env : Env) (config : WxPayConfig) (ty : RespType)
    (body : String) (h : (env.xmlUnmarshal ty body Response.zero).2 = none)
    (hc : (env.xmlUnmarshal ty body Response.zero).1.ReturnCode = "SUCCESS") :
    (respond env config ty false body).2 = none := by
  unfold respond
  dsimp only
  rw [if_neg (by simp [h]), if_neg (by simp [hc])]
  simp

theorem respond_verified (env : Env) (config : WxPayConfig) (ty : RespType)
    (body : String) (h : (env.xmlUnmarshal ty body Response.zero).2 = none)
    (hc : (env.xmlUnmarshal ty body Response.zero).1.ReturnCode = "SUCCESS") :
    (respond env config ty true body).2 = none ↔
      ∃ m, env.xml2Map ty (env.xmlUnmarshal ty body Response.zero).1 = .ok m ∧
        (env.xmlUnmarshal ty body Response.zero).1.Sign = env.makeSign m config.AppKey := by
  unfold respond
  dsimp only
  rw [if_neg (by simp [h]), if_neg (by simp [hc]), if_pos rfl]
  cases env.xml2Map ty (env.xmlUnmarshal ty body Response.zero).1 with
  | error e => simp
  | ok xmlMap =>
    dsimp only
    split_ifs with hs
    · simp [hs]
    · simp only [not_not] at hs
      simp [hs]

theorem respond_nil (env : Env) (config : WxPayConfig) (ty : RespType) (verify : Bool)
    (body : String) (h : (respond env config ty verify body).2 = none) :
    (env.xmlUnmarshal ty body Response.zero).2 = none ∧
      (env.xmlUnmarshal ty body Response.zero).1.ReturnCode = "SUCCESS" := by
  by_cases h1 : (env.xmlUnmarshal ty body Response.zero).2 = none
  · by_cases h2 : (env.xmlUnmarshal ty body Response.zero).1.ReturnCode = "SUCCESS"
    · exact ⟨h1, h2⟩
    · rw [respond_status env config ty verify body h1 h2] at h
      exact absurd h (by simp)
  · rw [respond_decode_error env config ty verify body h1] at h
    exact absurd h h1

/-! ## The three ways a networked operation ends -/

theorem NetOp.run_cases (op : NetOp) (env : Env) (config : WxPayConfig) (params : Params) :
    (op.missing config params ∧ ∃ msg, op.run env config params =
        { resp := Response.zero, err := some msg, params := params, trace := [] }) ∨
    (¬ op.missing config params ∧ ∃ e,
        env.sendXmlRequest "POST" op.url (env.map2Xml (op.signed env config params))
          config.TlsConfig config.Timeout = .error e ∧
        op.run env config params =
          { resp := Response.zero, err := some e, params := op.signed env config params,
            trace := [Event.map2Xml (op.signed env config params),
              op.request env config (op.signed env config params)] }) ∨
    (¬ op.missing config params ∧ ∃ body,
        env.sendXmlRequest "POST" op.url (env.map2Xml (op.signed env config params))
          config.TlsConfig config.Timeout = .ok body ∧
        op.run env config params =
          { resp := (respond env config op.respType op.verifies body).1,
            err := (respond env config op.respType op.verifies body).2,
            params := op.signed env config params,
            trace := [Event.map2Xml (op.signed env config params),
              op.request env config (op.signed env config params)] }) := by
  by_cases h : op.missing config params
  · exact Or.inl ⟨h, op.run_missing env config params h⟩
  · right
    rw [op.run_valid env config params h]
    unfold NetOp.exchange
    cases hs : env.sendXmlRequest "POST" op.url (env.map2Xml (op.signed env config params))
        config.TlsConfig config.Timeout with
    | error e => exact Or.inl ⟨h, e, rfl, rfl⟩
    | ok body => exact Or.inr ⟨h, body, rfl, rfl⟩

theorem received_of_answer (op : NetOp) (env : Env) (config : WxPayConfig) (p : Params)
    (resp : Response) (err : Error) (body : String)
    (hs : env.sendXmlRequest "POST" op.url (env.map2Xml p) config.TlsConfig
      config.Timeout = .ok body) :
    Outcome.received env
      { resp := resp, err := err, params := p,
        trace := [Event.map2Xml p, op.request env config p] } = [body] := by
  simp [Outcome.received, Event.answer, NetOp.request, hs]

theorem received_of_failure (op : NetOp) (env : Env) (config : WxPayConfig) (p : Params)
    (resp : Response) (err : Error) (e : String)
    (hs : env.sendXmlRequest "POST" op.url (env.map2Xml p) config.TlsConfig
      config.Timeout = .error e) :
    Outcome.received env
      { resp := resp, err := err, params := p,
        trace := [Event.map2Xml p, op.request env config p] } = [] := by
  simp [Outcome.received, Event.answer, NetOp.request, hs]

theorem NetOp.run_received (op : NetOp) (env : Env) (config : WxPayConfig) (params : Params)
    (body : String) (h : body ∈ (op.run env config params).received env) :
    ¬ op.missing config params ∧
      (op.run env config params).received env = [body] ∧
      (op.run env config params).resp = (respond env config op.respType op.verifies body).1 ∧
      (op.run env config params).err = (respond env config op.respType op.verifies body).2 := by
  rcases op.run_cases env config params with ⟨_, msg, hr⟩ | ⟨hm, e, hs, hr⟩ | ⟨hm, b, hs, hr⟩
  · rw [hr] at h
    simp [Outcome.received] at h
  · rw [hr, received_of_failure op env config _ _ _ e hs] at h
    simp at h
  · rw [hr, received_of_answer op env config _ _ _ b hs] at h
    have hb : body = b := by simpa using h
    subst hb
    rw [hr, received_of_answer op env config _ _ _ body hs]
    exact ⟨hm, rfl, rfl, rfl⟩

theorem NetOp.run_nil (op : NetOp) (env : Env) (config : WxPayConfig) (params : Params)
    (h : (op.run env config params).err = none) :
    ∃ body, body ∈ (op.run env config params).received env := by
  rcases op.run_cases env config params with ⟨_, msg, hr⟩ | ⟨hm, e, hs, hr⟩ | ⟨hm, b, hs, hr⟩
  · rw [hr] at h
    simp at h
  · rw [hr] at h
    simp at h
  · refine ⟨b, ?_⟩
    rw [hr, received_of_answer op env config _ _ _ b hs]
    simp

theorem respond_mismatch (env : Env) (config : WxPayConfig) (ty : RespType) (body : String)
    (r : Response) (hd : env.xmlUnmarshal ty body Response.zero = (r, none))
    (hc : r.ReturnCode = "SUCCESS")
    (hbad : ∀ m, env.xml2Map ty r = .ok m → r.Sign ≠ env.makeSign m config.AppKey) :
    (respond env config ty true body).2 ≠ none := by
  intro hnil
  have h2 : (env.xmlUnmarshal ty body Response.zero).2 = none := by rw [hd]
  have h1 : (env.xmlUnmarshal ty body Response.zero).1 = r := by rw [hd]
  obtain ⟨m, hm, hs⟩ := (respond_verified env config ty body h2 (by rw [h1]; exact hc)).1 hnil
  rw [h1] at hm hs
  exact hbad m hm hs

theorem respond_error_with_success (env : Env) (config : WxPayConfig) (ty : RespType)
    (verify : Bool) (body : String) (he : (respond env config ty verify body).2 ≠ none)
    (hc : (env.xmlUnmarshal ty body Response.zero).1.ReturnCode = "SUCCESS") :
    (env.xmlUnmarshal ty body Response.zero).2 ≠ none ∨
      (verify = true ∧ ∀ m, env.xml2Map ty (env.xmlUnmarshal ty body Response.zero).1 = .ok m →
        (env.xmlUnmarshal ty body Response.zero).1.Sign ≠ env.makeSign m config.AppKey) := by
  by_cases h2 : (env.xmlUnmarshal ty body Response.zero).2 = none
  · right
    cases verify with
    | false => exact absurd (respond_unverified env config ty body h2 hc) he
    | true =>
      refine ⟨rfl, fun m hm hs => he ?_⟩
      exact (respond_verified env config ty body h2 hc).2 ⟨m, hm, hs⟩
  · exact Or.inl h2

theorem zero_not_success : Response.zero.ReturnCode ≠ "SUCCESS" := by
  decide

theorem sends_of_request (op : NetOp) (env : Env) (config : WxPayConfig) (p : Params)
    (resp : Response) (err : Error) :
    Outcome.sends
      { resp := resp, err := err, params := p,
        trace := [Event.map2Xml p, op.request env config p] } = 1 := by
  simp [Outcome.sends, Event.isSend, NetOp.request]

/-! ## Facts about the merged map -/

theorem Params.lookup_default (m : Params) (k v key : String) (h : m.get key ≠ "") :
    (if m.get k = "" then m.set k v else m).lookup key = m.lookup key := by
  split_ifs with hk
  · have hne : key ≠ k := by
      intro e
      rw [e] at h
      exact h hk
    exact m.lookup_set_ne k v key hne
  · rfl

theorem Params.get_default (m : Params) (k v key : String) (h : m.get key ≠ "") :
    (if m.get k = "" then m.set k v else m).get key = m.get key := by
  have hl := m.lookup_default k v key h
  show ((if m.get k = "" then m.set k v else m).lookup key).getD "" = (m.lookup key).getD ""
  rw [hl]

theorem Params.lookup_default_ne (m : Params) (k v key : String) (h : key ≠ k) :
    (if m.get k = "" then m.set k v else m).lookup key = m.lookup key := by
  split_ifs with hk
  · exact m.lookup_set_ne k v key h
  · rfl

theorem Params.get_default_self (m : Params) (k v : String) :
    (if m.get k = "" then m.set k v else m).get k = if m.get k = "" then v else m.get k := by
  split_ifs with hk
  · exact m.get_set_eq k v
  · rfl

theorem Params.get_of_lookup (m : Params) (k v : String) (h : m.lookup k = some v) :
    m.get k = v := by
  simp [Params.get, h]

theorem Params.get_default_ne (m : Params) (k v key : String) (h : key ≠ k) :
    (if m.get k = "" then m.set k v else m).get key = m.get key := by
  have hl := m.lookup_default_ne k v key h
  show ((if m.get k = "" then m.set k v else m).lookup key).getD "" = (m.lookup key).getD ""
  rw [hl]

theorem NetOp.context_lookup_appid (op : NetOp) (env : Env) (config : WxPayConfig)
    (params : Params) :
    (op.context env config params).lookup "appid" = some config.AppId := by
  cases op <;>
    simp only [NetOp.context] <;>
    rw [Params.lookup_set_ne _ _ _ _ (by decide)] <;>
    first
      | (rw [Params.lookup_set_ne _ _ _ _ (by decide), Params.lookup_set_ne _ _ _ _ (by decide),
          Params.lookup_set_eq])
      | (rw [Params.lookup_set_ne _ _ _ _ (by decide), Params.lookup_set_eq])

theorem NetOp.context_lookup_mch_id (op : NetOp) (env : Env) (config : WxPayConfig)
    (params : Params) :
    (op.context env config params).lookup "mch_id" = some config.MchId := by
  cases op <;>
    simp only [NetOp.context] <;>
    rw [Params.lookup_set_ne _ _ _ _ (by decide)] <;>
    first
      | (rw [Params.lookup_set_ne _ _ _ _ (by decide), Params.lookup_set_eq])
      | (rw [Params.lookup_set_eq])

theorem NetOp.context_lookup_nonce_str (op : NetOp) (env : Env) (config : WxPayConfig)
    (params : Params) :
    (op.context env config params).lookup "nonce_str" = some (env.getNonceStr 32) := by
  cases op <;> simp only [NetOp.context] <;> rw [Params.lookup_set_eq]

theorem NetOp.context_lookup_trade_type (op : NetOp) (env : Env) (config : WxPayConfig)
    (params : Params) (h : op = .UnifiedOrder ∨ op = .MicroPay) :
    (op.context env config params).lookup "trade_type" = some config.TradeType := by
  rcases h with h | h <;> subst h <;> simp only [NetOp.context] <;>
    rw [Params.lookup_set_ne _ _ _ _ (by decide), Params.lookup_set_eq]

theorem NetOp.context_notify_url (env : Env) (config : WxPayConfig) (params : Params) :
    (NetOp.UnifiedOrder.context env config params).get "notify_url" =
      if params.get "notify_url" = "" then config.NotifyUrl else params.get "notify_url" := by
  simp only [NetOp.context]
  rw [Params.get_set_ne _ _ _ _ (by decide), Params.get_set_ne _ _ _ _ (by decide),
    Params.get_set_ne _ _ _ _ (by decide), Params.get_set_ne _ _ _ _ (by decide),
    Params.get_default_ne _ _ _ _ (by decide), Params.get_default_self]

theorem NetOp.context_spbill_create_ip (op : NetOp) (env : Env) (config : WxPayConfig)
    (params : Params) (h : op = .UnifiedOrder ∨ op = .MicroPay) :
    (op.context env config params).get "spbill_create_ip" =
      if params.get "spbill_create_ip" = "" then config.SpbillCreateIp
      else params.get "spbill_create_ip" := by
  rcases h with h | h <;> subst h <;> simp only [NetOp.context] <;>
    rw [Params.get_set_ne _ _ _ _ (by decide), Params.get_set_ne _ _ _ _ (by decide),
      Params.get_set_ne _ _ _ _ (by decide), Params.get_set_ne _ _ _ _ (by decide),
      Params.get_default_self]
  rw [Params.get_default_ne _ _ _ _ (by decide)]

theorem NetOp.signed_lookup (op : NetOp) (env : Env) (config : WxPayConfig) (params : Params)
    (k : String) (h : k ≠ "sign") :
    (op.signed env config params).lookup k = (op.context env config params).lookup k := by
  unfold NetOp.signed
  exact Params.lookup_set_ne _ _ _ _ h

theorem NetOp.signed_get (op : NetOp) (env : Env) (config : WxPayConfig) (params : Params)
    (k : String) (h : k ≠ "sign") :
    (op.signed env config params).get k = (op.context env config params).get k := by
  unfold NetOp.signed
  exact Params.get_set_ne _ _ _ _ h

theorem NetOp.context_lookup_nonempty (op : NetOp) (env : Env) (config : WxPayConfig)
    (params : Params) (k : String) (hk : k ∉ op.contextKeys) (hv : params.get k ≠ "") :
    (op.context env config params).lookup k = params.lookup k := by
  cases op <;> simp only [NetOp.contextKeys, List.mem_cons, List.mem_singleton, not_or,
    List.mem_nil_iff, not_false_eq_true, and_true] at hk <;> simp only [NetOp.context]
  · obtain ⟨h1, h2, h3, h4⟩ := hk
    rw [Params.lookup_set_ne _ _ _ _ h4, Params.lookup_set_ne _ _ _ _ h3,
      Params.lookup_set_ne _ _ _ _ h2, Params.lookup_set_ne _ _ _ _ h1,
      Params.lookup_default _ _ _ _ (by rw [Params.get_default _ _ _ _ hv]; exact hv),
      Params.lookup_default _ _ _ _ hv]
  · obtain ⟨h1, h2, h3⟩ := hk
    rw [Params.lookup_set_ne _ _ _ _ h3, Params.lookup_set_ne _ _ _ _ h2,
      Params.lookup_set_ne _ _ _ _ h1]
  · obtain ⟨h1, h2, h3⟩ := hk
    rw [Params.lookup_set_ne _ _ _ _ h3, Params.lookup_set_ne _ _ _ _ h2,
      Params.lookup_set_ne _ _ _ _ h1]
  · obtain ⟨h1, h2, h3⟩ := hk
    rw [Params.lookup_set_ne _ _ _ _ h3, Params.lookup_set_ne _ _ _ _ h2,
      Params.lookup_set_ne _ _ _ _ h1]
  · obtain ⟨h1, h2, h3⟩ := hk
    rw [Params.lookup_set_ne _ _ _ _ h3, Params.lookup_set_ne _ _ _ _ h2,
      Params.lookup_set_ne _ _ _ _ h1]
  · obtain ⟨h1, h2, h3, h4⟩ := hk
    rw [Params.lookup_set_ne _ _ _ _ h4, Params.lookup_set_ne _ _ _ _ h3,
      Params.lookup_set_ne _ _ _ _ h2, Params.lookup_set_ne _ _ _ _ h1,
      Params.lookup_default _ _ _ _ hv]
  · obtain ⟨h1, h2, h3⟩ := hk
    rw [Params.lookup_set_ne _ _ _ _ h3, Params.lookup_set_ne _ _ _ _ h2,
      Params.lookup_set_ne _ _ _ _ h1]

theorem NetOp.context_lookup_other (op : NetOp) (env : Env) (config : WxPayConfig)
    (params : Params) (k : String) (hk : k ∉ op.contextKeys) (hd : k ∉ op.defaultedKeys) :
    (op.context env config params).lookup k = params.lookup k := by
  cases op <;> simp only [NetOp.contextKeys, List.mem_cons, List.mem_singleton, not_or,
    List.mem_nil_iff, not_false_eq_true, and_true] at hk <;>
    simp only [NetOp.defaultedKeys, List.mem_cons, List.mem_singleton, not_or,
      List.mem_nil_iff, not_false_eq_true, and_true] at hd <;> simp only [NetOp.context]
  · obtain ⟨h1, h2, h3, h4⟩ := hk
    rw [Params.lookup_set_ne _ _ _ _ h4, Params.lookup_set_ne _ _ _ _ h3,
      Params.lookup_set_ne _ _ _ _ h2, Params.lookup_set_ne _ _ _ _ h1,
      Params.lookup_default_ne _ _ _ _ hd.2, Params.lookup_default_ne _ _ _ _ hd.1]
  · obtain ⟨h1, h2, h3⟩ := hk
    rw [Params.lookup_set_ne _ _ _ _ h3, Params.lookup_set_ne _ _ _ _ h2,
      Params.lookup_set_ne _ _ _ _ h1]
  · obtain ⟨h1, h2, h3⟩ := hk
    rw [Params.lookup_set_ne _ _ _ _ h3, Params.lookup_set_ne _ _ _ _ h2,
      Params.lookup_set_ne _ _ _ _ h1]
  · obtain ⟨h1, h2, h3⟩ := hk
    rw [Params.lookup_set_ne _ _ _ _ h3, Params.lookup_set_ne _ _ _ _ h2,
      Params.lookup_set_ne _ _ _ _ h1]
  · obtain ⟨h1, h2, h3⟩ := hk
    rw [Params.lookup_set_ne _ _ _ _ h3, Params.lookup_set_ne _ _ _ _ h2,
      Params.lookup_set_ne _ _ _ _ h1]
  · obtain ⟨h1, h2, h3, h4⟩ := hk
    rw [Params.lookup_set_ne _ _ _ _ h4, Params.lookup_set_ne _ _ _ _ h3,
      Params.lookup_set_ne _ _ _ _ h2, Params.lookup_set_ne _ _ _ _ h1,
      Params.lookup_default_ne _ _ _ _ hd]
  · obtain ⟨h1, h2, h3⟩ := hk
    rw [Params.lookup_set_ne _ _ _ _ h3, Params.lookup_set_ne _ _ _ _ h2,
      Params.lookup_set_ne _ _ _ _ h1]

theorem NetOp.encoded_eq (op : NetOp) (env : Env) (config : WxPayConfig) (params : Params)
    (p : Params) (h : Event.map2Xml p ∈ (op.run env config params).trace) :
    ¬ op.missing config params ∧ p = op.signed env config params ∧
      (op.run env config params).params = p := by
  rcases op.run_cases env config params with ⟨_, msg, hr⟩ | ⟨hm, e, _, hr⟩ | ⟨hm, b, _, hr⟩
  · rw [hr] at h
    simp at h
  · rw [hr] at h ⊢
    have hp : p = op.signed env config params := by
      simpa [NetOp.request] using h
    exact ⟨hm, hp, hp.symm⟩
  · rw [hr] at h ⊢
    have hp : p = op.signed env config params := by
      simpa [NetOp.request] using h
    exact ⟨hm, hp, hp.symm⟩

theorem NetOp.trace_valid (op : NetOp) (env : Env) (config : WxPayConfig) (params : Params)
    (h : ¬ op.missing config params) :
    (op.run env config params).trace =
      [Event.map2Xml (op.signed env config params),
        Event.sendXmlRequest "POST" op.url (env.map2Xml (op.signed env config params))
          config.TlsConfig config.Timeout] ∧
      (op.run env config params).params = op.signed env config params := by
  rcases op.run_cases env config params with ⟨hm, _⟩ | ⟨_, e, _, hr⟩ | ⟨_, b, _, hr⟩
  · exact absurd hm h
  · rw [hr]
    exact ⟨rfl, rfl⟩
  · rw [hr]
    exact ⟨rfl, rfl⟩

theorem makeSign_set_sign_others (md5Hex : String → String) (m : Params) (s key : String) :
    makeSign md5Hex (m.set "sign" s).others key = makeSign md5Hex m key := by
  have h : ((m.set "sign" s).others.entries.filter (fun e => e.1 ≠ "sign" ∧ e.2 ≠ "")) =
      m.entries.filter (fun e => e.1 ≠ "sign" ∧ e.2 ≠ "") := by
    simp only [Params.others, Params.filter, Params.set]
    rw [List.filter_filter, List.filter_cons_of_neg (by simp), List.filter_filter]
    congr 1
    funext e
    by_cases h1 : e.1 = "sign" <;> simp [h1]
  unfold makeSign
  rw [h]

theorem NetOp.run_answered (op : NetOp) (env : Env) (config : WxPayConfig) (params : Params)
    (body : String) (h : ¬ op.missing config params)
    (hs : env.sendXmlRequest "POST" op.url (env.map2Xml (op.signed env config params))
      config.TlsConfig config.Timeout = .ok body) :
    (op.run env config params).resp = (respond env config op.respType op.verifies body).1 ∧
      (op.run env config params).err = (respond env config op.respType op.verifies body).2 := by
  rcases op.run_cases env config params with ⟨hm, _⟩ | ⟨_, e, he, _⟩ | ⟨_, b, hb, hr⟩
  · exact absurd hm h
  · rw [hs] at he
    cases he
  · rw [hs] at hb
    cases hb
    rw [hr]
    exact ⟨rfl, rfl⟩

theorem find_key_iff_mem (l : List (String × String)) (hl : (l.map Prod.fst).Nodup)
    (k v : String) :
    l.find? (fun e => e.1 = k) = some (k, v) ↔ (k, v) ∈ l := by
  induction l with
  | nil => simp
  | cons e l ih =>
    rw [List.map_cons, List.nodup_cons] at hl
    by_cases he : e.1 = k
    · rw [List.find?_cons_of_pos _ (by simpa using he)]
      constructor
      · intro h
        have h2 : e = (k, v) := by simpa using h
        rw [h2]
        exact List.mem_cons_self _ _
      · intro h
        rcases List.mem_cons.1 h with h | h
        · rw [h]
        · exfalso
          apply hl.1
          rw [he]
          exact List.mem_map.2 ⟨(k, v), h, rfl⟩
    · rw [List.find?_cons_of_neg _ (by simpa using he), ih hl.2]
      constructor
      · intro h
        exact List.mem_cons_of_mem _ h
      · intro h
        rcases List.mem_cons.1 h with h | h
        · exfalso
          apply he
          rw [← h]
        · exact h

theorem Params.lookup_iff_mem (m : Params) (k v : String) :
    m.lookup k = some v ↔ (k, v) ∈ m.entries := by
  rw [← find_key_iff_mem m.entries m.nodup k v]
  unfold Params.lookup
  constructor
  · intro h
    obtain ⟨e, he, hv⟩ := Option.map_eq_some'.1 h
    have hk : e.1 = k := by simpa using List.find?_some he
    rw [he]
    congr 1
    exact Prod.ext hk hv
  · intro h
    rw [h]
    rfl

theorem Params.others_lookup (m : Params) (k v : String) :
    m.others.lookup k = some v ↔ (m.lookup k = some v ∧ k ≠ "sign" ∧ v ≠ "") := by
  rw [Params.lookup_iff_mem, Params.lookup_iff_mem]
  simp [Params.others, Params.filter, List.mem_filter]

theorem Params.lookup_of_get_ne (m : Params) (k : String) (h : m.get k ≠ "") :
    m.lookup k = some (m.get k) := by
  unfold Params.get at h ⊢
  cases hl : m.lookup k with
  | none =>
    rw [hl] at h
    exact absurd rfl h
  | some v => rfl

/-! ## The claims -/

/-- C1: a verifying operation (UnifiedOrder, CloseOrder, Refund, MicroPay,
ReverseOrder, Notify) whose response decodes to a record with return_code
"SUCCESS" and a sign that is not `makeSign (xml2Map record) AppKey` returns a
non-nil error; equivalently a nil error implies that the returned record has
return_code "SUCCESS" and carries the recomputed signature. -/
theorem verifying_operation_rejects_bad_signature (env : Env) (config : WxPayConfig) :
    (∀ (op : NetOp) (params : Params), op.verifies = true →
      (∀ (body : String) (r : Response),
          body ∈ (op.run env config params).received env →
          env.xmlUnmarshal op.respType body Response.zero = (r, none) →
          r.ReturnCode = "SUCCESS" →
          (∀ m, env.xml2Map op.respType r = .ok m → r.Sign ≠ env.makeSign m config.AppKey) →
          (op.run env config params).err ≠ none) ∧
      ((op.run env config params).err = none →
          (op.run env config params).resp.ReturnCode = "SUCCESS" ∧
          ∃ m, env.xml2Map op.respType (op.run env config params).resp = .ok m ∧
            (op.run env config params).resp.Sign = env.makeSign m config.AppKey)) ∧
    (∀ (body : String),
      (∀ (r : Response),
          env.xmlUnmarshal .NotifyResponse body Response.zero = (r, none) →
          r.ReturnCode = "SUCCESS" →
          (∀ m, env.xml2Map .NotifyResponse r = .ok m →
            r.Sign ≠ env.makeSign m config.AppKey) →
          (Notify env config body).err ≠ none) ∧
      ((Notify env config body).err = none →
          (Notify env config body).resp.ReturnCode = "SUCCESS" ∧
          ∃ m, env.xml2Map .NotifyResponse (Notify env config body).resp = .ok m ∧
            (Notify env config body).resp.Sign = env.makeSign m config.AppKey)) := by
  refine ⟨fun op params hv => ⟨?_, ?_⟩, fun body => ⟨?_, ?_⟩⟩
  · intro body r hb hd hc hbad hnil
    obtain ⟨_, _, _, herr⟩ := op.run_received env config params body hb
    rw [herr, hv] at hnil
    have h2 : (env.xmlUnmarshal op.respType body Response.zero).2 = none := by rw [hd]
    have h1 : (env.xmlUnmarshal op.respType body Response.zero).1 = r := by rw [hd]
    obtain ⟨m, hm, hs⟩ :=
      (respond_verified env config op.respType body h2 (by rw [h1]; exact hc)).1 hnil
    rw [h1] at hm hs
    exact hbad m hm hs
  · intro hnil
    obtain ⟨body, hb⟩ := op.run_nil env config params hnil
    obtain ⟨_, _, hresp, herr⟩ := op.run_received env config params body hb
    rw [herr] at hnil
    obtain ⟨h2, hc⟩ := respond_nil env config op.respType op.verifies body hnil
    rw [hv] at hnil
    rw [hresp, respond_fst]
    exact ⟨hc, (respond_verified env config op.respType body h2 hc).1 hnil⟩
  · intro r hd hc hbad hnil
    rw [Notify_eq] at hnil
    have h2 : (env.xmlUnmarshal .NotifyResponse body Response.zero).2 = none := by rw [hd]
    have h1 : (env.xmlUnmarshal .NotifyResponse body Response.zero).1 = r := by rw [hd]
    obtain ⟨m, hm, hs⟩ :=
      (respond_verified env config .NotifyResponse body h2 (by rw [h1]; exact hc)).1 hnil
    rw [h1] at hm hs
    exact hbad m hm hs
  · intro hnil
    rw [Notify_eq] at hnil ⊢
    obtain ⟨h2, hc⟩ := respond_nil env config .NotifyResponse true body hnil
    show (respond env config .NotifyResponse true body).1.ReturnCode = "SUCCESS" ∧ _
    rw [respond_fst]
    exact ⟨hc, (respond_verified env config .NotifyResponse body h2 hc).1 hnil⟩

theorem verifying_operation_rejects_bad_signature_witness :
    (NetOp.UnifiedOrder.run (fixedGateway forgedReply) demoConfig demoParams).err ≠ none ∧
      (Notify (fixedGateway forgedReply) demoConfig forgedReply.1).err ≠ none :=
  ⟨((verifying_operation_rejects_bad_signature (fixedGateway forgedReply) demoConfig).1
      NetOp.UnifiedOrder demoParams rfl).1 forgedReply.1 forgedReply.2 (by decide) (by decide)
      rfl (by intro m hm; cases hm; decide),
    ((verifying_operation_rejects_bad_signature (fixedGateway forgedReply) demoConfig).2
      forgedReply.1).1 forgedReply.2 (by decide) rfl (by intro m hm; cases hm; decide)⟩

/-- C2, as the code has it: a record with return_code "SUCCESS" comes with a
non-nil error only after a response was received and either its decoding failed
or, in a verifying operation, its verification failed; and when verification
fails the operation returns the decoded record itself, return_code "SUCCESS"
included, next to the error. -/
theorem success_record_with_error_only_after_failed_check (env : Env) (config : WxPayConfig) :
    (∀ (op : NetOp) (params : Params),
      ((op.run env config params).err ≠ none →
        (op.run env config params).resp.ReturnCode = "SUCCESS" →
        ∃ body, body ∈ (op.run env config params).received env ∧
          (op.run env config params).resp =
            (env.xmlUnmarshal op.respType body Response.zero).1 ∧
          ((env.xmlUnmarshal op.respType body Response.zero).2 ≠ none ∨
            (op.verifies = true ∧
              ∀ m, env.xml2Map op.respType (op.run env config params).resp = .ok m →
                (op.run env config params).resp.Sign ≠ env.makeSign m config.AppKey))) ∧
      (op.verifies = true → ∀ (body : String) (r : Response),
        body ∈ (op.run env config params).received env →
        env.xmlUnmarshal op.respType body Response.zero = (r, none) →
        r.ReturnCode = "SUCCESS" →
        (∀ m, env.xml2Map op.respType r = .ok m → r.Sign ≠ env.makeSign m config.AppKey) →
        (op.run env config params).resp = r ∧ (op.run env config params).err ≠ none)) ∧
    (∀ (body : String),
      ((Notify env config body).err ≠ none →
        (Notify env config body).resp.ReturnCode = "SUCCESS" →
        (Notify env config body).resp =
            (env.xmlUnmarshal .NotifyResponse body Response.zero).1 ∧
          ((env.xmlUnmarshal .NotifyResponse body Response.zero).2 ≠ none ∨
            ∀ m, env.xml2Map .NotifyResponse (Notify env config body).resp = .ok m →
              (Notify env config body).resp.Sign ≠ env.makeSign m config.AppKey)) ∧
      (∀ (r : Response),
        env.xmlUnmarshal .NotifyResponse body Response.zero = (r, none) →
        r.ReturnCode = "SUCCESS" →
        (∀ m, env.xml2Map .NotifyResponse r = .ok m →
          r.Sign ≠ env.makeSign m config.AppKey) →
        (Notify env config body).resp = r ∧ (Notify env config body).err ≠ none)) := by
  refine ⟨fun op params => ⟨?_, ?_⟩, fun body => ⟨?_, ?_⟩⟩
  · intro he hc
    rcases op.run_cases env config params with ⟨_, msg, hr⟩ | ⟨hm, e, hs, hr⟩ | ⟨hm, b, hs, hr⟩
    · rw [hr] at hc
      exact absurd hc zero_not_success
    · rw [hr] at hc
      exact absurd hc zero_not_success
    · refine ⟨b, ?_, ?_, ?_⟩
      · rw [hr, received_of_answer op env config _ _ _ b hs]
        simp
      · rw [hr]
        exact respond_fst env config op.respType op.verifies b
      · rw [hr] at he hc ⊢
        have hc2 : (env.xmlUnmarshal op.respType b Response.zero).1.ReturnCode = "SUCCESS" := by
          rw [← respond_fst env config op.respType op.verifies b]
          exact hc
        show _ ∨ (_ ∧ ∀ m, env.xml2Map op.respType
          (respond env config op.respType op.verifies b).1 = .ok m →
          (respond env config op.respType op.verifies b).1.Sign ≠ _)
        rw [respond_fst]
        exact respond_error_with_success env config op.respType op.verifies b he hc2
  · intro hv body r hb hd hc hbad
    obtain ⟨_, _, hresp, herr⟩ := op.run_received env config params body hb
    rw [hresp, herr, respond_fst, hv, hd]
    exact ⟨rfl, respond_mismatch env config op.respType body r hd hc hbad⟩
  · intro he hc
    rw [Notify_eq] at he hc ⊢
    have hc2 : (env.xmlUnmarshal .NotifyResponse body Response.zero).1.ReturnCode = "SUCCESS" := by
      rw [← respond_fst env config .NotifyResponse true body]
      exact hc
    show (respond env config .NotifyResponse true body).1 = _ ∧ (_ ∨ ∀ m, env.xml2Map
      .NotifyResponse (respond env config .NotifyResponse true body).1 = .ok m →
      (respond env config .NotifyResponse true body).1.Sign ≠ _)
    rw [respond_fst]
    refine ⟨rfl, ?_⟩
    rcases respond_error_with_success env config .NotifyResponse true body he hc2 with h | h
    · exact Or.inl h
    · exact Or.inr h.2
  · intro r hd hc hbad
    rw [Notify_eq]
    show (respond env config .NotifyResponse true body).1 = r ∧
      (respond env config .NotifyResponse true body).2 ≠ none
    rw [respond_fst, hd]
    exact ⟨rfl, respond_mismatch env config .NotifyResponse body r hd hc hbad⟩

theorem success_record_with_error_only_after_failed_check_witness :
    (NetOp.Refund.run (fixedGateway forgedReply) demoConfig
        (Params.ofList [("out_trade_no", "1"), ("out_refund_no", "2"), ("total_fee", "100"),
          ("refund_fee", "100"), ("op_user_id", "u")])).resp = forgedReply.2 ∧
      (NetOp.Refund.run (fixedGateway forgedReply) demoConfig
        (Params.ofList [("out_trade_no", "1"), ("out_refund_no", "2"), ("total_fee", "100"),
          ("refund_fee", "100"), ("op_user_id", "u")])).err ≠ none :=
  ((success_record_with_error_only_after_failed_check (fixedGateway forgedReply) demoConfig).1
    NetOp.Refund _).2 rfl forgedReply.1 forgedReply.2 (by decide) (by decide) rfl
    (by intro m hm; cases hm; decide)

/-- C2, as stated, fails: on a response with return_code "SUCCESS" and a wrong
sign, `Notify` and `UnifiedOrder` return the error "sign err" together with a
record whose return_code is "SUCCESS". -/
theorem sign_error_comes_with_success_record :
    ((Notify (fixedGateway forgedReply) demoConfig forgedReply.1).resp.ReturnCode = "SUCCESS" ∧
      (Notify (fixedGateway forgedReply) demoConfig forgedReply.1).err = some "sign err") ∧
    ((UnifiedOrder (fixedGateway forgedReply) demoConfig demoParams).resp.ReturnCode = "SUCCESS" ∧
      (UnifiedOrder (fixedGateway forgedReply) demoConfig demoParams).err = some "sign err") := by
  decide

/-- C3: for each of the seven networked operations, when its required-field
check fails the operation returns a non-nil error and the transport is not
invoked; when the check passes the transport is invoked exactly once. -/
theorem failed_required_field_check_never_sends (op : NetOp) (env : Env)
    (config : WxPayConfig) (params : Params) :
    (op.missing config params →
      (op.run env config params).err ≠ none ∧ (op.run env config params).sends = 0 ∧
        (op.run env config params).trace = []) ∧
    (¬ op.missing config params → (op.run env config params).sends = 1) := by
  constructor
  · intro h
    obtain ⟨msg, hr⟩ := op.run_missing env config params h
    rw [hr]
    simp [Outcome.sends]
  · intro h
    rcases op.run_cases env config params with ⟨hm, _⟩ | ⟨_, e, _, hr⟩ | ⟨_, b, _, hr⟩
    · exact absurd hm h
    · rw [hr]
      exact sends_of_request op env config _ _ _
    · rw [hr]
      exact sends_of_request op env config _ _ _

theorem failed_required_field_check_never_sends_witness :
    ((NetOp.OrderQuery.run (fixedGateway signedReply) demoConfig Params.empty).err ≠ none ∧
      (NetOp.OrderQuery.run (fixedGateway signedReply) demoConfig Params.empty).sends = 0 ∧
      (NetOp.OrderQuery.run (fixedGateway signedReply) demoConfig Params.empty).trace = []) ∧
    (NetOp.UnifiedOrder.run (fixedGateway signedReply) demoConfig demoParams).sends = 1 :=
  ⟨(failed_required_field_check_never_sends NetOp.OrderQuery (fixedGateway signedReply)
      demoConfig Params.empty).1 (by decide),
    (failed_required_field_check_never_sends NetOp.UnifiedOrder (fixedGateway signedReply)
      demoConfig demoParams).2 (by decide)⟩

/-- C4: each of the seven networked operations, on an input that passes its
required-field check, sends one request; when the transport answers it with a
body that decodes to a record whose return_code is not "SUCCESS", the operation
returns that record with an error whose message is the record's return_msg.
Notify does the same on the body it is given.  Two runs under any two configs
and any two sets of helpers whose responses agree on return_msg therefore return
the same error, whatever the sign fields and the AppKeys are. -/
theorem gateway_failure_returns_return_msg (env env2 : Env) (config config2 : WxPayConfig) :
    (∀ (op : NetOp) (params : Params), ¬ op.missing config params →
      ∃ p : Params,
        (op.run env config params).trace =
          [Event.map2Xml p,
            Event.sendXmlRequest "POST" op.url (env.map2Xml p) config.TlsConfig
              config.Timeout] ∧
        ∀ (body : String) (r : Response),
          env.sendXmlRequest "POST" op.url (env.map2Xml p) config.TlsConfig config.Timeout =
            .ok body →
          env.xmlUnmarshal op.respType body Response.zero = (r, none) →
          r.ReturnCode ≠ "SUCCESS" →
          (op.run env config params).err = some r.ReturnMsg ∧
            (op.run env config params).resp = r ∧
            ∀ (params2 : Params), ¬ op.missing config2 params2 →
              ∃ p2 : Params,
                (op.run env2 config2 params2).trace =
                  [Event.map2Xml p2,
                    Event.sendXmlRequest "POST" op.url (env2.map2Xml p2) config2.TlsConfig
                      config2.Timeout] ∧
                ∀ (body2 : String) (r2 : Response),
                  env2.sendXmlRequest "POST" op.url (env2.map2Xml p2) config2.TlsConfig
                    config2.Timeout = .ok body2 →
                  env2.xmlUnmarshal op.respType body2 Response.zero = (r2, none) →
                  r2.ReturnCode ≠ "SUCCESS" → r2.ReturnMsg = r.ReturnMsg →
                  (op.run env2 config2 params2).err = (op.run env config params).err) ∧
    (∀ (body : String) (r : Response),
      env.xmlUnmarshal .NotifyResponse body Response.zero = (r, none) →
      r.ReturnCode ≠ "SUCCESS" →
      (Notify env config body).err = some r.ReturnMsg ∧
        (Notify env config body).resp = r ∧
        ∀ (body2 : String) (r2 : Response),
          env2.xmlUnmarshal .NotifyResponse body2 Response.zero = (r2, none) →
          r2.ReturnCode ≠ "SUCCESS" → r2.ReturnMsg = r.ReturnMsg →
          (Notify env2 config2 body2).err = (Notify env config body).err) := by
  have net : ∀ (e : Env) (c : WxPayConfig) (op : NetOp) (params : Params) (body : String)
      (r : Response), ¬ op.missing c params →
      e.sendXmlRequest "POST" op.url (e.map2Xml (op.signed e c params)) c.TlsConfig
        c.Timeout = .ok body →
      e.xmlUnmarshal op.respType body Response.zero = (r, none) →
      r.ReturnCode ≠ "SUCCESS" →
      (op.run e c params).err = some r.ReturnMsg ∧ (op.run e c params).resp = r := by
    intro e c op params body r hm hs hd hc
    obtain ⟨hresp, herr⟩ := op.run_answered e c params body hm hs
    have h2 : (e.xmlUnmarshal op.respType body Response.zero).2 = none := by rw [hd]
    have h1 : (e.xmlUnmarshal op.respType body Response.zero).1 = r := by rw [hd]
    rw [hresp, herr, respond_fst, respond_status e c op.respType op.verifies body h2
      (by rw [h1]; exact hc), h1]
    exact ⟨rfl, rfl⟩
  have ntf : ∀ (e : Env) (c : WxPayConfig) (body : String) (r : Response),
      e.xmlUnmarshal .NotifyResponse body Response.zero = (r, none) →
      r.ReturnCode ≠ "SUCCESS" →
      (Notify e c body).err = some r.ReturnMsg ∧ (Notify e c body).resp = r := by
    intro e c body r hd hc
    have h2 : (e.xmlUnmarshal .NotifyResponse body Response.zero).2 = none := by rw [hd]
    have h1 : (e.xmlUnmarshal .NotifyResponse body Response.zero).1 = r := by rw [hd]
    rw [Notify_eq]
    show (respond e c .NotifyResponse true body).2 = _ ∧ (respond e c .NotifyResponse true body).1 = _
    rw [respond_fst, respond_status e c .NotifyResponse true body h2 (by rw [h1]; exact hc), h1]
    exact ⟨rfl, rfl⟩
  constructor
  · intro op params hm
    refine ⟨op.signed env config params, (op.trace_valid env config params hm).1, ?_⟩
    intro body r hs hd hc
    obtain ⟨h1, h2⟩ := net env config op params body r hm hs hd hc
    refine ⟨h1, h2, ?_⟩
    intro params2 hm2
    refine ⟨op.signed env2 config2 params2, (op.trace_valid env2 config2 params2 hm2).1, ?_⟩
    intro body2 r2 hs2 hd2 hc2 hmsg
    rw [h1, (net env2 config2 op params2 body2 r2 hm2 hs2 hd2 hc2).1, hmsg]
  · intro body r hd hc
    obtain ⟨h1, h2⟩ := ntf env config body r hd hc
    refine ⟨h1, h2, ?_⟩
    intro body2 r2 hd2 hc2 hmsg
    rw [h1, (ntf env2 config2 body2 r2 hd2 hc2).1, hmsg]

theorem gateway_failure_returns_return_msg_witness :
    ((NetOp.CloseOrder.run (fixedGateway failReply) demoConfig demoParams).err =
        some "签名错误" ∧
      (NetOp.CloseOrder.run (fixedGateway failReply) demoConfig demoParams).resp =
        failReply.2) ∧
    ((Notify (fixedGateway failReply) demoConfig failReply.1).err = some "签名错误" ∧
      (Notify (fixedGateway failReply) demoConfig failReply.1).resp = failReply.2) := by
  obtain ⟨p, _, h⟩ := (gateway_failure_returns_return_msg (fixedGateway failReply)
    (fixedGateway failReply) demoConfig demoConfig).1 NetOp.CloseOrder demoParams (by decide)
  have h1 := h failReply.1 failReply.2 rfl (by decide) (by decide)
  have h2 := (gateway_failure_returns_return_msg (fixedGateway failReply)
    (fixedGateway failReply) demoConfig demoConfig).2 failReply.1 failReply.2 (by decide)
    (by decide)
  exact ⟨⟨h1.1, h1.2.1⟩, ⟨h2.1, h2.2.1⟩⟩

/-- C5: OrderQuery and RefundQuery, on every input that passes the
required-field check, send one request, and when the transport answers it with
a body that decodes to a record with return_code "SUCCESS" they return that
record with a nil error, whatever its sign and the AppKey are; every other
response-handling operation (UnifiedOrder, CloseOrder, Refund, MicroPay,
ReverseOrder, Notify) returns such a record with a nil error exactly when its
sign equals the recomputed signature. -/
theorem queries_skip_verification_others_compare (env : Env) (config : WxPayConfig) :
    (∀ (op : NetOp) (params : Params),
      op = .OrderQuery ∨ op = .RefundQuery → ¬ op.missing config params →
      ∃ p : Params,
        (op.run env config params).trace =
          [Event.map2Xml p,
            Event.sendXmlRequest "POST" op.url (env.map2Xml p) config.TlsConfig
              config.Timeout] ∧
        ∀ (body : String) (r : Response),
          env.sendXmlRequest "POST" op.url (env.map2Xml p) config.TlsConfig config.Timeout =
            .ok body →
          env.xmlUnmarshal op.respType body Response.zero = (r, none) →
          r.ReturnCode = "SUCCESS" →
          (op.run env config params).resp = r ∧ (op.run env config params).err = none) ∧
    (∀ (op : NetOp) (params : Params),
      op ≠ .OrderQuery → op ≠ .RefundQuery → ¬ op.missing config params →
      ∃ p : Params,
        (op.run env config params).trace =
          [Event.map2Xml p,
            Event.sendXmlRequest "POST" op.url (env.map2Xml p) config.TlsConfig
              config.Timeout] ∧
        ∀ (body : String) (r : Response),
          env.sendXmlRequest "POST" op.url (env.map2Xml p) config.TlsConfig config.Timeout =
            .ok body →
          env.xmlUnmarshal op.respType body Response.zero = (r, none) →
          r.ReturnCode = "SUCCESS" →
          (op.run env config params).resp = r ∧
            ((op.run env config params).err = none ↔
              ∃ m, env.xml2Map op.respType r = .ok m ∧
                r.Sign = env.makeSign m config.AppKey)) ∧
    (∀ (body : String) (r : Response),
      env.xmlUnmarshal .NotifyResponse body Response.zero = (r, none) →
      r.ReturnCode = "SUCCESS" →
      (Notify env config body).resp = r ∧
        ((Notify env config body).err = none ↔
          ∃ m, env.xml2Map .NotifyResponse r = .ok m ∧
            r.Sign = env.makeSign m config.AppKey)) := by
  refine ⟨?_, ?_, ?_⟩
  · intro op params hop hm
    refine ⟨op.signed env config params, (op.trace_valid env config params hm).1, ?_⟩
    intro body r hs hd hc
    have hv : op.verifies = false := by
      rcases hop with h | h <;> rw [h] <;> rfl
    obtain ⟨hresp, herr⟩ := op.run_answered env config params body hm hs
    have h2 : (env.xmlUnmarshal op.respType body Response.zero).2 = none := by rw [hd]
    have h1 : (env.xmlUnmarshal op.respType body Response.zero).1 = r := by rw [hd]
    rw [hresp, herr, respond_fst, hv, h1]
    exact ⟨rfl, respond_unverified env config op.respType body h2 (by rw [h1]; exact hc)⟩
  · intro op params hq hrq hm
    refine ⟨op.signed env config params, (op.trace_valid env config params hm).1, ?_⟩
    intro body r hs hd hc
    have hv : op.verifies = true := by
      cases op <;> first | rfl | exact absurd rfl hq | exact absurd rfl hrq
    obtain ⟨hresp, herr⟩ := op.run_answered env config params body hm hs
    have h2 : (env.xmlUnmarshal op.respType body Response.zero).2 = none := by rw [hd]
    have h1 : (env.xmlUnmarshal op.respType body Response.zero).1 = r := by rw [hd]
    rw [hresp, herr, respond_fst, hv, h1]
    refine ⟨rfl, ?_⟩
    have := respond_verified env config op.respType body h2 (by rw [h1]; exact hc)
    rw [h1] at this
    exact this
  · intro body r hd hc
    have h2 : (env.xmlUnmarshal .NotifyResponse body Response.zero).2 = none := by rw [hd]
    have h1 : (env.xmlUnmarshal .NotifyResponse body Response.zero).1 = r := by rw [hd]
    rw [Notify_eq]
    show (respond env config .NotifyResponse true body).1 = r ∧
      ((respond env config .NotifyResponse true body).2 = none ↔ _)
    rw [respond_fst, h1]
    refine ⟨rfl, ?_⟩
    have := respond_verified env config .NotifyResponse body h2 (by rw [h1]; exact hc)
    rw [h1] at this
    exact this

theorem queries_skip_verification_others_compare_witness :
    ((NetOp.OrderQuery.run (fixedGateway forgedReply) demoConfig demoParams).resp =
        forgedReply.2 ∧
      (NetOp.OrderQuery.run (fixedGateway forgedReply) demoConfig demoParams).err = none) ∧
    ((NetOp.RefundQuery.run (fixedGateway forgedReply) demoConfig demoParams).resp =
        forgedReply.2 ∧
      (NetOp.RefundQuery.run (fixedGateway forgedReply) demoConfig demoParams).err = none) ∧
    ((NetOp.ReverseOrder.run (fixedGateway forgedReply) demoConfig demoParams).err = none ↔
      ∃ m, (fixedGateway forgedReply).xml2Map NetOp.ReverseOrder.respType forgedReply.2 = .ok m ∧
        forgedReply.2.Sign = (fixedGateway forgedReply).makeSign m demoConfig.AppKey) ∧
    ((NetOp.ReverseOrder.run (fixedGateway signedReply) demoConfig demoParams).err = none ↔
      ∃ m, (fixedGateway signedReply).xml2Map NetOp.ReverseOrder.respType signedReply.2 = .ok m ∧
        signedReply.2.Sign = (fixedGateway signedReply).makeSign m demoConfig.AppKey) := by
  obtain ⟨p1, _, h1⟩ := (queries_skip_verification_others_compare (fixedGateway forgedReply)
    demoConfig).1 NetOp.OrderQuery demoParams (Or.inl rfl) (by decide)
  obtain ⟨p2, _, h2⟩ := (queries_skip_verification_others_compare (fixedGateway forgedReply)
    demoConfig).1 NetOp.RefundQuery demoParams (Or.inr rfl) (by decide)
  obtain ⟨p3, _, h3⟩ := (queries_skip_verification_others_compare (fixedGateway forgedReply)
    demoConfig).2.1 NetOp.ReverseOrder demoParams (by decide) (by decide) (by decide)
  obtain ⟨p4, _, h4⟩ := (queries_skip_verification_others_compare (fixedGateway signedReply)
    demoConfig).2.1 NetOp.ReverseOrder demoParams (by decide) (by decide) (by decide)
  exact ⟨h1 forgedReply.1 forgedReply.2 rfl (by decide) rfl,
    h2 forgedReply.1 forgedReply.2 rfl (by decide) rfl,
    (h3 forgedReply.1 forgedReply.2 rfl (by decide) rfl).2,
    (h4 signedReply.1 signedReply.2 rfl (by decide) rfl).2⟩

/-- C6, as the code has it: in each networked operation, with the signer of
spec 4.2, the set handed to `map2Xml` carries a sign equal to the signature
under AppKey of its other non-empty fields, which are exactly its entries under
a key other than sign with a non-empty value.  They include appid =
config.AppId, mch_id = config.MchId and nonce_str = the nonce of this call
(trade_type = config.TradeType too in UnifiedOrder and MicroPay), each when that
value is non-empty, and every non-empty field of the caller under another key;
a sign entry in the caller's input changes nothing.  An input that passes the
required-field check is encoded and sent. -/
theorem encoded_set_carries_signature_of_other_fields (op : NetOp) (md5Hex : String → String)
    (env : Env) (config : WxPayConfig) (params : Params) :
    (¬ op.missing config params →
      ∃ p, (op.run (env.withSigner md5Hex) config params).trace =
        [Event.map2Xml p,
          Event.sendXmlRequest "POST" op.url (env.map2Xml p) config.TlsConfig config.Timeout]) ∧
    (∀ p, Event.map2Xml p ∈ (op.run (env.withSigner md5Hex) config params).trace →
      p.lookup "sign" = some (makeSign md5Hex p.others config.AppKey) ∧
      (∀ k v, p.others.lookup k = some v ↔ (p.lookup k = some v ∧ k ≠ "sign" ∧ v ≠ "")) ∧
      (config.AppId ≠ "" → p.others.lookup "appid" = some config.AppId) ∧
      (config.MchId ≠ "" → p.others.lookup "mch_id" = some config.MchId) ∧
      (env.getNonceStr 32 ≠ "" → p.others.lookup "nonce_str" = some (env.getNonceStr 32)) ∧
      (op = .UnifiedOrder ∨ op = .MicroPay → config.TradeType ≠ "" →
        p.others.lookup "trade_type" = some config.TradeType) ∧
      (∀ k, k ≠ "sign" → k ∉ op.contextKeys → params.get k ≠ "" →
        p.others.lookup k = params.lookup k ∧ p.others.get k = params.get k)) := by
  constructor
  · intro h
    exact ⟨_, (op.trace_valid (env.withSigner md5Hex) config params h).1⟩
  · intro p hp
    obtain ⟨_, hp, _⟩ := op.encoded_eq (env.withSigner md5Hex) config params p hp
    subst hp
    refine ⟨?_, ?_, ?_, ?_, ?_, ?_, ?_⟩
    · unfold NetOp.signed
      rw [makeSign_set_sign_others, Params.lookup_set_eq]
      rfl
    · intro k v
      exact Params.others_lookup _ k v
    · intro hne
      rw [Params.others_lookup, op.signed_lookup _ _ _ _ (by decide)]
      exact ⟨op.context_lookup_appid _ config params, by decide, hne⟩
    · intro hne
      rw [Params.others_lookup, op.signed_lookup _ _ _ _ (by decide)]
      exact ⟨op.context_lookup_mch_id _ config params, by decide, hne⟩
    · intro hne
      rw [Params.others_lookup, op.signed_lookup _ _ _ _ (by decide)]
      exact ⟨op.context_lookup_nonce_str _ config params, by decide, hne⟩
    · intro h hne
      rw [Params.others_lookup, op.signed_lookup _ _ _ _ (by decide)]
      exact ⟨op.context_lookup_trade_type _ config params h, by decide, hne⟩
    · intro k hs hk hv
      have hl : (NetOp.signed op (env.withSigner md5Hex) config params).others.lookup k =
          params.lookup k := by
        rw [Params.lookup_of_get_ne params k hv, Params.others_lookup,
          op.signed_lookup _ _ _ _ hs, op.context_lookup_nonempty _ config params k hk hv]
        exact ⟨Params.lookup_of_get_ne params k hv, hs, hv⟩
      refine ⟨hl, ?_⟩
      unfold Params.get
      rw [hl]

theorem encoded_set_carries_signature_of_other_fields_witness :
    (NetOp.MicroPay.run ((fixedGateway signedReply).withSigner id) demoConfig
        staleSignParams).params.lookup "sign" =
      some (makeSign id (NetOp.MicroPay.run ((fixedGateway signedReply).withSigner id) demoConfig
        staleSignParams).params.others demoConfig.AppKey) ∧
    (NetOp.MicroPay.run ((fixedGateway signedReply).withSigner id) demoConfig
        staleSignParams).params.others.lookup "appid" = some demoConfig.AppId ∧
    (NetOp.MicroPay.run ((fixedGateway signedReply).withSigner id) demoConfig
        staleSignParams).params.others.lookup "trade_type" = some demoConfig.TradeType ∧
    (NetOp.MicroPay.run ((fixedGateway signedReply).withSigner id) demoConfig
        staleSignParams).params.others.lookup "notify_url" =
      staleSignParams.lookup "notify_url" := by
  have h := (encoded_set_carries_signature_of_other_fields NetOp.MicroPay id
    (fixedGateway signedReply) demoConfig staleSignParams).2 _
    (show Event.map2Xml (NetOp.MicroPay.run ((fixedGateway signedReply).withSigner id)
      demoConfig staleSignParams).params ∈ _ by decide)
  exact ⟨h.1, h.2.2.1 (by decide), h.2.2.2.2.2.1 (Or.inr rfl) (by decide),
    (h.2.2.2.2.2.2 "notify_url" (by decide) (by decide) (by decide)).1⟩

/-- C6, as stated, fails: with an empty `config.AppId` the set `OrderQuery`
encodes holds appid with an empty value, and the other non-empty fields, the
ones the sign is computed over, hold no appid at all. -/
theorem signed_fields_lack_blank_appid :
    ¬ NetOp.OrderQuery.missing blankAppIdConfig demoParams ∧
      Event.map2Xml
          (OrderQuery ((fixedGateway signedReply).withSigner id) blankAppIdConfig
            demoParams).params ∈
        (OrderQuery ((fixedGateway signedReply).withSigner id) blankAppIdConfig
          demoParams).trace ∧
      (OrderQuery ((fixedGateway signedReply).withSigner id) blankAppIdConfig
        demoParams).params.lookup "appid" = some blankAppIdConfig.AppId ∧
      (OrderQuery ((fixedGateway signedReply).withSigner id) blankAppIdConfig
        demoParams).params.others.lookup "appid" = none ∧
      (OrderQuery ((fixedGateway signedReply).withSigner id) blankAppIdConfig
        demoParams).params.lookup "sign" =
        some (makeSign id (OrderQuery ((fixedGateway signedReply).withSigner id)
          blankAppIdConfig demoParams).params.others blankAppIdConfig.AppKey) := by
  decide

/-- C7, as the code has it: a networked operation writes into the caller's own
map.  When the required-field check fails the map is left as it was; when it
passes, the caller's map after the call is the very set handed to `map2Xml`: it
holds appid, mch_id, nonce_str and sign (trade_type too in UnifiedOrder and
MicroPay), and an entry under any other key is unchanged unless it was blank and
is one the operation fills from the config. -/
theorem operation_writes_into_callers_map (op : NetOp) (env : Env) (config : WxPayConfig)
    (params : Params) :
    (op.missing config params → (op.run env config params).params = params) ∧
    (¬ op.missing config params →
      Event.map2Xml (op.run env config params).params ∈ (op.run env config params).trace ∧
      (op.run env config params).params.lookup "appid" = some config.AppId ∧
      (op.run env config params).params.lookup "mch_id" = some config.MchId ∧
      (op.run env config params).params.lookup "nonce_str" = some (env.getNonceStr 32) ∧
      (op.run env config params).params.lookup "sign" ≠ none ∧
      (op = .UnifiedOrder ∨ op = .MicroPay →
        (op.run env config params).params.lookup "trade_type" = some config.TradeType) ∧
      (∀ k, k ≠ "sign" → k ∉ op.contextKeys → (k ∉ op.defaultedKeys ∨ params.get k ≠ "") →
        (op.run env config params).params.lookup k = params.lookup k)) := by
  constructor
  · intro h
    obtain ⟨msg, hr⟩ := op.run_missing env config params h
    rw [hr]
  · intro h
    obtain ⟨ht, hp⟩ := op.trace_valid env config params h
    rw [hp, ht]
    refine ⟨by simp, ?_, ?_, ?_, ?_, ?_, ?_⟩
    · rw [op.signed_lookup _ _ _ _ (by decide)]
      exact op.context_lookup_appid env config params
    · rw [op.signed_lookup _ _ _ _ (by decide)]
      exact op.context_lookup_mch_id env config params
    · rw [op.signed_lookup _ _ _ _ (by decide)]
      exact op.context_lookup_nonce_str env config params
    · unfold NetOp.signed
      rw [Params.lookup_set_eq]
      simp
    · intro h2
      rw [op.signed_lookup _ _ _ _ (by decide)]
      exact op.context_lookup_trade_type env config params h2
    · intro k hs hk hv
      rw [op.signed_lookup _ _ _ _ hs]
      rcases hv with hv | hv
      · exact op.context_lookup_other env config params k hk hv
      · exact op.context_lookup_nonempty env config params k hk hv

theorem operation_writes_into_callers_map_witness :
    (NetOp.OrderQuery.run (fixedGateway signedReply) demoConfig Params.empty).params =
        Params.empty ∧
      (NetOp.OrderQuery.run (fixedGateway signedReply) demoConfig demoParams).params.lookup
        "appid" = some demoConfig.AppId :=
  ⟨(operation_writes_into_callers_map NetOp.OrderQuery (fixedGateway signedReply) demoConfig
      Params.empty).1 (by decide),
    ((operation_writes_into_callers_map NetOp.OrderQuery (fixedGateway signedReply) demoConfig
      demoParams).2 (by decide)).2.1⟩

/-- C7, as stated, fails: after `OrderQuery` on the demo parameters the caller's
map holds an appid and a sign entry it did not hold before. -/
theorem callers_map_changes :
    demoParams.lookup "appid" = none ∧ demoParams.lookup "sign" = none ∧
      (OrderQuery (fixedGateway signedReply) demoConfig demoParams).params.lookup "appid" =
        some "wx8a92954451ec0dfa" ∧
      (OrderQuery (fixedGateway signedReply) demoConfig demoParams).params.lookup "sign" ≠
        none ∧
      (OrderQuery (fixedGateway signedReply) demoConfig demoParams).params ≠ demoParams := by
  decide

/-- C8, the code at the failing input: with an empty `config.TradeType` and a
caller-supplied trade_type "APP", `UnifiedOrder` raises no error of its own,
invokes the transport once, and the set it encodes and sends has the caller's
trade_type replaced by the empty string. -/
theorem UnifiedOrder_sends_empty_trade_type :
    tradeTypeParams.get "trade_type" = "APP" ∧
      (UnifiedOrder (fixedGateway signedReply) unsetTradeTypeConfig tradeTypeParams).sends = 1 ∧
      Event.map2Xml
          (UnifiedOrder (fixedGateway signedReply) unsetTradeTypeConfig tradeTypeParams).params ∈
        (UnifiedOrder (fixedGateway signedReply) unsetTradeTypeConfig tradeTypeParams).trace ∧
      (UnifiedOrder (fixedGateway signedReply) unsetTradeTypeConfig tradeTypeParams).params.lookup
        "trade_type" = some "" := by
  decide

/-- C9: for an input that passes the required-field check, the set that
`UnifiedOrder` signs and the set it encodes have notify_url equal to the caller's
value when that is non-empty and to `config.NotifyUrl` otherwise, and
spbill_create_ip equal to the caller's value when non-empty and to
`config.SpbillCreateIp` otherwise; `MicroPay` does the same for spbill_create_ip
and leaves notify_url as the caller gave it. -/
theorem blank_fields_take_config_defaults (env : Env) (config : WxPayConfig) (params : Params) :
    ((¬ NetOp.UnifiedOrder.missing config params →
        ∃ p, Event.map2Xml p ∈ (UnifiedOrder env config params).trace) ∧
      ∀ p, Event.map2Xml p ∈ (UnifiedOrder env config params).trace →
        ∃ q : Params, p = q.set "sign" (env.makeSign q config.AppKey) ∧
          q.get "notify_url" =
            (if params.get "notify_url" = "" then config.NotifyUrl
              else params.get "notify_url") ∧
          p.get "notify_url" = q.get "notify_url" ∧
          q.get "spbill_create_ip" =
            (if params.get "spbill_create_ip" = "" then config.SpbillCreateIp
              else params.get "spbill_create_ip") ∧
          p.get "spbill_create_ip" = q.get "spbill_create_ip") ∧
    ((¬ NetOp.MicroPay.missing config params →
        ∃ p, Event.map2Xml p ∈ (MicroPay env config params).trace) ∧
      ∀ p, Event.map2Xml p ∈ (MicroPay env config params).trace →
        ∃ q : Params, p = q.set "sign" (env.makeSign q config.AppKey) ∧
          q.get "spbill_create_ip" =
            (if params.get "spbill_create_ip" = "" then config.SpbillCreateIp
              else params.get "spbill_create_ip") ∧
          p.get "spbill_create_ip" = q.get "spbill_create_ip" ∧
          q.lookup "notify_url" = params.lookup "notify_url" ∧
          p.lookup "notify_url" = params.lookup "notify_url") := by
  refine ⟨⟨?_, ?_⟩, ⟨?_, ?_⟩⟩
  · intro h
    refine ⟨NetOp.UnifiedOrder.signed env config params, ?_⟩
    show Event.map2Xml _ ∈ (NetOp.UnifiedOrder.run env config params).trace
    rw [(NetOp.UnifiedOrder.trace_valid env config params h).1]
    exact List.mem_cons_self _ _
  · intro p hp
    obtain ⟨_, hp, _⟩ := NetOp.UnifiedOrder.encoded_eq env config params p hp
    refine ⟨NetOp.UnifiedOrder.context env config params, hp, ?_, ?_, ?_, ?_⟩
    · exact NetOp.context_notify_url env config params
    · rw [hp]
      exact NetOp.UnifiedOrder.signed_get env config params "notify_url" (by decide)
    · exact NetOp.UnifiedOrder.context_spbill_create_ip env config params (Or.inl rfl)
    · rw [hp]
      exact NetOp.UnifiedOrder.signed_get env config params "spbill_create_ip" (by decide)
  · intro h
    refine ⟨NetOp.MicroPay.signed env config params, ?_⟩
    show Event.map2Xml _ ∈ (NetOp.MicroPay.run env config params).trace
    rw [(NetOp.MicroPay.trace_valid env config params h).1]
    exact List.mem_cons_self _ _
  · intro p hp
    obtain ⟨_, hp, _⟩ := NetOp.MicroPay.encoded_eq env config params p hp
    have hn : (NetOp.MicroPay.context env config params).lookup "notify_url" =
        params.lookup "notify_url" :=
      NetOp.MicroPay.context_lookup_other env config params "notify_url" (by decide) (by decide)
    refine ⟨NetOp.MicroPay.context env config params, hp, ?_, ?_, hn, ?_⟩
    · exact NetOp.MicroPay.context_spbill_create_ip env config params (Or.inr rfl)
    · rw [hp]
      exact NetOp.MicroPay.signed_get env config params "spbill_create_ip" (by decide)
    · rw [hp, NetOp.MicroPay.signed_lookup env config params "notify_url" (by decide)]
      exact hn

theorem blank_fields_take_config_defaults_witness :
    (∃ p, Event.map2Xml p ∈ (UnifiedOrder (fixedGateway signedReply) demoConfig demoParams).trace) ∧
      ∃ q : Params, (UnifiedOrder (fixedGateway signedReply) demoConfig staleSignParams).params =
          q.set "sign" ((fixedGateway signedReply).makeSign q demoConfig.AppKey) ∧
        q.get "notify_url" =
          (if staleSignParams.get "notify_url" = "" then demoConfig.NotifyUrl
            else staleSignParams.get "notify_url") ∧
        (UnifiedOrder (fixedGateway signedReply) demoConfig staleSignParams).params.get
          "notify_url" = q.get "notify_url" ∧
        q.get "spbill_create_ip" =
          (if staleSignParams.get "spbill_create_ip" = "" then demoConfig.SpbillCreateIp
            else staleSignParams.get "spbill_create_ip") ∧
        (UnifiedOrder (fixedGateway signedReply) demoConfig staleSignParams).params.get
          "spbill_create_ip" = q.get "spbill_create_ip" :=
  ⟨(blank_fields_take_config_defaults (fixedGateway signedReply) demoConfig demoParams).1.1
      (by decide),
    (blank_fields_take_config_defaults (fixedGateway signedReply) demoConfig
      staleSignParams).1.2 _ (by decide)⟩

/-- C10: `AppApiPay` returns the map of exactly the seven keys appid, partnerid,
prepayid, package = "Sign=WXPay", noncestr, timestamp and sign, the sign being
`makeSign` of the map of the other six under AppKey; `JsApiPay` serialises the
map of exactly the six keys appId, timeStamp, nonceStr, package = "prepay_id=" +
prepayId, signType = "MD5" and paySign, the paySign being `makeSign` of the map
of the other five; neither invokes the transport. -/
theorem signing_helpers_build_documented_objects (env : Env) (config : WxPayConfig)
    (prepayId : String) :
    ((AppApiPay env config prepayId).1.entries =
        [("sign", env.makeSign (Params.ofList [("appid", config.AppId),
            ("partnerid", config.MchId), ("prepayid", prepayId), ("package", "Sign=WXPay"),
            ("noncestr", env.getNonceStr 32), ("timestamp", sprintfD env.nowUnix)])
            config.AppKey),
          ("timestamp", sprintfD env.nowUnix), ("noncestr", env.getNonceStr 32),
          ("package", "Sign=WXPay"), ("prepayid", prepayId), ("partnerid", config.MchId),
          ("appid", config.AppId)] ∧
      (Params.ofList [("appid", config.AppId), ("partnerid", config.MchId),
          ("prepayid", prepayId), ("package", "Sign=WXPay"), ("noncestr", env.getNonceStr 32),
          ("timestamp", sprintfD env.nowUnix)]).entries =
        [("timestamp", sprintfD env.nowUnix), ("noncestr", env.getNonceStr 32),
          ("package", "Sign=WXPay"), ("prepayid", prepayId), ("partnerid", config.MchId),
          ("appid", config.AppId)] ∧
      (AppApiPay env config prepayId).2 = []) ∧
    ((JsApiPay env config prepayId).2 =
        [Event.jsonMarshal ((Params.ofList [("appId", config.AppId),
            ("timeStamp", sprintfD env.nowUnix), ("nonceStr", env.getNonceStr 32),
            ("package", "prepay_id=" ++ prepayId), ("signType", "MD5")]).set "paySign"
          (env.makeSign (Params.ofList [("appId", config.AppId),
            ("timeStamp", sprintfD env.nowUnix), ("nonceStr", env.getNonceStr 32),
            ("package", "prepay_id=" ++ prepayId), ("signType", "MD5")]) config.AppKey))] ∧
      ((Params.ofList [("appId", config.AppId), ("timeStamp", sprintfD env.nowUnix),
            ("nonceStr", env.getNonceStr 32), ("package", "prepay_id=" ++ prepayId),
            ("signType", "MD5")]).set "paySign"
          (env.makeSign (Params.ofList [("appId", config.AppId),
            ("timeStamp", sprintfD env.nowUnix), ("nonceStr", env.getNonceStr 32),
            ("package", "prepay_id=" ++ prepayId), ("signType", "MD5")])
            config.AppKey)).entries =
        [("paySign", env.makeSign (Params.ofList [("appId", config.AppId),
            ("timeStamp", sprintfD env.nowUnix), ("nonceStr", env.getNonceStr 32),
            ("package", "prepay_id=" ++ prepayId), ("signType", "MD5")]) config.AppKey),
          ("signType", "MD5"), ("package", "prepay_id=" ++ prepayId),
          ("nonceStr", env.getNonceStr 32), ("timeStamp", sprintfD env.nowUnix),
          ("appId", config.AppId)] ∧
      (Params.ofList [("appId", config.AppId), ("timeStamp", sprintfD env.nowUnix),
          ("nonceStr", env.getNonceStr 32), ("package", "prepay_id=" ++ prepayId),
          ("signType", "MD5")]).entries =
        [("signType", "MD5"), ("package", "prepay_id=" ++ prepayId),
          ("nonceStr", env.getNonceStr 32), ("timeStamp", sprintfD env.nowUnix),
          ("appId", config.AppId)] ∧
      (JsApiPay env config prepayId).1 =
        (match env.jsonMarshal ((Params.ofList [("appId", config.AppId),
            ("timeStamp", sprintfD env.nowUnix), ("nonceStr", env.getNonceStr 32),
            ("package", "prepay_id=" ++ prepayId), ("signType", "MD5")]).set "paySign"
          (env.makeSign (Params.ofList [("appId", config.AppId),
            ("timeStamp", sprintfD env.nowUnix), ("nonceStr", env.getNonceStr 32),
            ("package", "prepay_id=" ++ prepayId), ("signType", "MD5")]) config.AppKey)) with
        | .ok body => (body, none)
        | .error e => ("", some e))) := by
  refine ⟨⟨?_, ?_, rfl⟩, ⟨?_, ?_, ?_, ?_⟩⟩
  · simp [AppApiPay, Params.ofList, Params.set, Params.empty]
  · simp [Params.ofList, Params.set, Params.empty]
  · unfold JsApiPay
    dsimp only
    split <;> rfl
  · simp [Params.ofList, Params.set, Params.empty]
  · simp [Params.ofList, Params.set, Params.empty]
  · unfold JsApiPay
    dsimp only
    split <;> simp_all [Params.ofList]

end Wxpay
